import Mathlib

/-!
# SpadesX example gamemode plugin

A shallow embedding of `PluginAPI.h` and `template_plugin.c`.

* Opaque pointers (`server_t*`, `player_t*`, `map_t*`) are natural-number
  handles; the handle `0` is `NULL`.
* `uint8_t`, `uint32_t` values are natural numbers and `int32_t` values are
  integers; the handlers below only compare them, so every result proved for
  all naturals / integers holds in particular for the machine ranges.
* The host behind the function table is arbitrary: every entry of
  `plugin_api` is a function of an abstract host state `σ` that returns its C
  result together with the next host state.
* Every call made through a function table is appended to `machine.calls`.
* The plugin keeps its table in the static pointer `api`, which is `NULL`
  until `spadesx_plugin_init` ran.  A callback that dereferences a `NULL` table
  stops with result `none`; the machine it returns holds what happened before.
-/

namespace SpadesX

/-! ## PluginAPI.h -/

def TOOL_SPADE : Nat := 0
def TOOL_BLOCK : Nat := 1
def TOOL_GUN : Nat := 2
def TOOL_GRENADE : Nat := 3

def SPADESX_PLUGIN_API_VERSION : Nat := 1

/-- Team structure for plugins. -/
structure plugin_team_t where
  id : Nat
  name : String
  color : Nat
deriving DecidableEq, Repr

/-- Block structure for plugins. -/
structure block_t where
  x : Int
  y : Int
  z : Int
  color : Nat
deriving DecidableEq, Repr

/-- A `vector3f_t`; each component is the bit pattern of an IEEE binary32. -/
structure vector3f_t where
  x : Nat
  y : Nat
  z : Nat
deriving DecidableEq, Repr

def PLUGIN_OK : Int := 0
def PLUGIN_ALLOW : Int := 1
def PLUGIN_DENY : Int := 2
def PLUGIN_ERROR : Int := -1
def PLUGIN_ERROR_INVALID_PARAM : Int := -2
def PLUGIN_ERROR_NULL_POINTER : Int := -3
def PLUGIN_ERROR_OUT_OF_RANGE : Int := -4
def PLUGIN_ERROR_NOT_FOUND : Int := -5
def PLUGIN_ERROR_PERMISSION_DENIED : Int := -6
def PLUGIN_ERROR_INVALID_STATE : Int := -7
def PLUGIN_ERROR_PLAYER_NOT_FOUND : Int := -100
def PLUGIN_ERROR_PLAYER_DEAD : Int := -101
def PLUGIN_ERROR_PLAYER_DISCONNECTED : Int := -102
def PLUGIN_ERROR_INVALID_TEAM : Int := -103
def PLUGIN_ERROR_INVALID_HP : Int := -104
def PLUGIN_ERROR_MAP_OUT_OF_BOUNDS : Int := -200
def PLUGIN_ERROR_MAP_INVALID_COLOR : Int := -201
def PLUGIN_ERROR_MAP_NO_BLOCK : Int := -202
def PLUGIN_ERROR_CMD_ALREADY_REGISTERED : Int := -300
def PLUGIN_ERROR_CMD_INVALID_NAME : Int := -301
def PLUGIN_ERROR_CMD_TOO_MANY : Int := -302

/-- One variadic argument of a logging call. -/
inductive log_arg where
  | str (s : String)
  | ptr (is_null : Bool)
deriving DecidableEq, Repr

/-- The function table `plugin_api_t`, over a host with states `σ`. -/
structure plugin_api (σ : Type) where
  get_player : Nat → Nat → σ → Nat × σ
  player_get_name : Nat → σ → String × σ
  player_get_team : Nat → Nat → σ → plugin_team_t × σ
  player_get_tool : Nat → σ → Nat × σ
  player_get_blocks : Nat → σ → Nat × σ
  player_get_grenades : Nat → σ → Nat × σ
  player_get_color : Nat → σ → Nat × σ
  player_set_color : Nat → Nat → σ → Int × σ
  player_set_color_broadcast : Nat → Nat → Nat → σ → Int × σ
  player_restock : Nat → σ → Int × σ
  player_send_notice : Nat → String → σ → Int × σ
  player_kill : Nat → σ → Int × σ
  player_set_hp : Nat → Nat → σ → Int × σ
  player_get_hp : Nat → σ → Nat × σ
  player_get_position : Nat → σ → vector3f_t × σ
  player_set_position : Nat → vector3f_t → σ → Int × σ
  get_map : Nat → σ → Nat × σ
  map_get_block : Nat → Int → Int → Int → σ → Nat × σ
  map_set_block : Nat → Int → Int → Int → Nat → σ → Int × σ
  map_remove_block : Nat → Int → Int → Int → σ → Int × σ
  map_find_top_block : Nat → Int → Int → σ → Int × σ
  map_is_valid_pos : Nat → Int → Int → Int → σ → Int × σ
  init_add_block : Nat → Int → Int → Int → Nat → σ → Int × σ
  init_set_intel_position : Nat → Nat → Int → Int → Int → σ → Int × σ
  broadcast_message : Nat → String → σ → Int × σ
  register_command : Nat → String → String → Nat → Nat → σ → Int × σ
  log_message : String → Nat → String → List log_arg → σ → σ
  log_debug : String → String → List log_arg → σ → σ
  log_info : String → String → List log_arg → σ → σ
  log_warning : String → String → List log_arg → σ → σ
  log_error : String → String → List log_arg → σ → σ

/-- A call through a function table: the entry and its arguments. -/
inductive api_call where
  | get_player (server player_id : Nat)
  | player_get_name (player : Nat)
  | player_get_team (server player : Nat)
  | player_get_tool (player : Nat)
  | player_get_blocks (player : Nat)
  | player_get_grenades (player : Nat)
  | player_get_color (player : Nat)
  | player_set_color (player color : Nat)
  | player_set_color_broadcast (server player color : Nat)
  | player_restock (player : Nat)
  | player_send_notice (player : Nat) (message : String)
  | player_kill (player : Nat)
  | player_set_hp (player hp : Nat)
  | player_get_hp (player : Nat)
  | player_get_position (player : Nat)
  | player_set_position (player : Nat) (position : vector3f_t)
  | get_map (server : Nat)
  | map_get_block (map : Nat) (x y z : Int)
  | map_set_block (server : Nat) (x y z : Int) (color : Nat)
  | map_remove_block (server : Nat) (x y z : Int)
  | map_find_top_block (map : Nat) (x y : Int)
  | map_is_valid_pos (map : Nat) (x y z : Int)
  | init_add_block (server : Nat) (x y z : Int) (color : Nat)
  | init_set_intel_position (server team_id : Nat) (x y z : Int)
  | broadcast_message (server : Nat) (message : String)
  | register_command (server : Nat) (command_name description : String) (handler perms : Nat)
  | log_message (plugin_name : String) (level : Nat) (format : String) (args : List log_arg)
  | log_debug (plugin_name format : String) (args : List log_arg)
  | log_info (plugin_name format : String) (args : List log_arg)
  | log_warning (plugin_name format : String) (args : List log_arg)
  | log_error (plugin_name format : String) (args : List log_arg)
deriving DecidableEq, Repr

/-! ## template_plugin.c : static data -/

/-- Track blocks above players. -/
structure player_block_tracker_t where
  player_id : Nat
  block_x : Int
  block_y : Int
  block_z : Int
  has_block : Nat
deriving DecidableEq, Repr

/-- The plugin's static variables (`api`, `player_blocks`, `tick_counter`), the
host state, and the record of the calls made through a function table. -/
structure machine (σ : Type) where
  api : Option (plugin_api σ)
  player_blocks : Nat → player_block_tracker_t
  tick_counter : Int
  host : σ
  calls : List api_call

def PLUGIN_NAME : String := "Example Gamemode"

/-- Run a table entry that returns a value on the host state and record it. -/
def invoke {σ α : Type} (c : api_call) (f : σ → α × σ) (m : machine σ) : α × machine σ :=
  ((f m.host).1, { m with host := (f m.host).2, calls := m.calls ++ [c] })

/-- Run a table entry that returns nothing on the host state and record it. -/
def invoke_void {σ : Type} (c : api_call) (f : σ → σ) (m : machine σ) : machine σ :=
  { m with host := f m.host, calls := m.calls ++ [c] }

def call_get_player {σ : Type} (t : plugin_api σ) (server player_id : Nat) :
    machine σ → Nat × machine σ :=
  invoke (.get_player server player_id) (t.get_player server player_id)

def call_player_get_name {σ : Type} (t : plugin_api σ) (player : Nat) :
    machine σ → String × machine σ :=
  invoke (.player_get_name player) (t.player_get_name player)

def call_player_get_team {σ : Type} (t : plugin_api σ) (server player : Nat) :
    machine σ → plugin_team_t × machine σ :=
  invoke (.player_get_team server player) (t.player_get_team server player)

def call_player_get_blocks {σ : Type} (t : plugin_api σ) (player : Nat) :
    machine σ → Nat × machine σ :=
  invoke (.player_get_blocks player) (t.player_get_blocks player)

def call_player_get_color {σ : Type} (t : plugin_api σ) (player : Nat) :
    machine σ → Nat × machine σ :=
  invoke (.player_get_color player) (t.player_get_color player)

def call_player_set_color_broadcast {σ : Type} (t : plugin_api σ) (server player color : Nat) :
    machine σ → Int × machine σ :=
  invoke (.player_set_color_broadcast server player color)
    (t.player_set_color_broadcast server player color)

def call_player_restock {σ : Type} (t : plugin_api σ) (player : Nat) :
    machine σ → Int × machine σ :=
  invoke (.player_restock player) (t.player_restock player)

def call_player_send_notice {σ : Type} (t : plugin_api σ) (player : Nat) (message : String) :
    machine σ → Int × machine σ :=
  invoke (.player_send_notice player message) (t.player_send_notice player message)

def call_player_get_position {σ : Type} (t : plugin_api σ) (player : Nat) :
    machine σ → vector3f_t × machine σ :=
  invoke (.player_get_position player) (t.player_get_position player)

def call_get_map {σ : Type} (t : plugin_api σ) (server : Nat) :
    machine σ → Nat × machine σ :=
  invoke (.get_map server) (t.get_map server)

def call_map_set_block {σ : Type} (t : plugin_api σ) (server : Nat) (x y z : Int) (color : Nat) :
    machine σ → Int × machine σ :=
  invoke (.map_set_block server x y z color) (t.map_set_block server x y z color)

def call_map_find_top_block {σ : Type} (t : plugin_api σ) (map : Nat) (x y : Int) :
    machine σ → Int × machine σ :=
  invoke (.map_find_top_block map x y) (t.map_find_top_block map x y)

def call_map_is_valid_pos {σ : Type} (t : plugin_api σ) (map : Nat) (x y z : Int) :
    machine σ → Int × machine σ :=
  invoke (.map_is_valid_pos map x y z) (t.map_is_valid_pos map x y z)

def call_init_add_block {σ : Type} (t : plugin_api σ) (server : Nat) (x y z : Int) (color : Nat) :
    machine σ → Int × machine σ :=
  invoke (.init_add_block server x y z color) (t.init_add_block server x y z color)

def call_init_set_intel_position {σ : Type} (t : plugin_api σ) (server team_id : Nat)
    (x y z : Int) : machine σ → Int × machine σ :=
  invoke (.init_set_intel_position server team_id x y z)
    (t.init_set_intel_position server team_id x y z)

def call_log_debug {σ : Type} (t : plugin_api σ) (plugin_name format : String)
    (args : List log_arg) : machine σ → machine σ :=
  invoke_void (.log_debug plugin_name format args) (t.log_debug plugin_name format args)

def call_log_info {σ : Type} (t : plugin_api σ) (plugin_name format : String)
    (args : List log_arg) : machine σ → machine σ :=
  invoke_void (.log_info plugin_name format args) (t.log_info plugin_name format args)

def call_log_error {σ : Type} (t : plugin_api σ) (plugin_name format : String)
    (args : List log_arg) : machine σ → machine σ :=
  invoke_void (.log_error plugin_name format args) (t.log_error plugin_name format args)

/-! ## template_plugin.c : event handlers -/

/-- The local `is_platform` of `spadesx_plugin_on_block_destroy`. -/
def is_platform (x y z : Int) : Bool :=
  ((x ≥ 206 && x ≤ 306) && (y ≥ 240 && y ≤ 272) && (z == 2 || z == 0)) ||
  ((x ≥ 205 && x ≤ 307) && (y ≥ 239 && y ≤ 273) && (z == 1))

def NOTICE_PLATFORM : String :=
  "You should try to destroy the ennemy's tower... Not the platform!"

def NOTICE_OWN_SIDE : String :=
  "You should try to destroy the ennemy's tower... It is not on this side of the map!"

/-- Block destruction check. -/
def spadesx_plugin_on_block_destroy {σ : Type} (server player tool : Nat) (block : block_t)
    (m : machine σ) : Option Int × machine σ :=
  let x := block.x
  let y := block.y
  let z := block.z
  if is_platform x y z then
    match m.api with
    | none => (none, m)
    | some api =>
      let m1 := (call_player_send_notice api player NOTICE_PLATFORM m).2
      (some PLUGIN_DENY, m1)
  else if tool = TOOL_SPADE then
    (some PLUGIN_ALLOW, m)
  else
    match m.api with
    | none => (none, m)
    | some api =>
      let r := call_player_get_team api server player m
      let team := r.1
      if (team.id = 1 ∧ x > 292) ∨ (team.id = 0 ∧ x < 220) then
        let m2 := (call_player_send_notice api player NOTICE_OWN_SIDE r.2).2
        (some PLUGIN_DENY, m2)
      else
        (some PLUGIN_ALLOW, r.2)

/-- Block placement check; the block behind the pointer is returned as well. -/
def spadesx_plugin_on_block_place {σ : Type} (server player : Nat) (block : block_t)
    (m : machine σ) : Option Int × block_t × machine σ :=
  match m.api with
  | none => (none, block, m)
  | some api =>
    let r1 := call_player_get_team api server player m
    let team := r1.1
    let r2 := call_player_get_color api player r1.2
    let player_color := r2.1
    let block1 := if block.color ≠ team.color then { block with color := team.color } else block
    let m3 :=
      if player_color ≠ team.color then
        (call_player_set_color_broadcast api server player team.color r2.2).2
      else r2.2
    let r4 := call_player_get_blocks api player m3
    let m5 := if r4.1 < 10 then (call_player_restock api player r4.2).2 else r4.2
    (some PLUGIN_ALLOW, block1, m5)

/-- The C library `strcmp` on the contents of two strings: `0` when they are
equal, otherwise the sign of the first difference. -/
def strcmp_chars : List Char → List Char → Int
  | [], [] => 0
  | [], _ :: _ => -1
  | _ :: _, [] => 1
  | a :: as, b :: bs =>
    if a = b then strcmp_chars as bs else if a.toNat < b.toNat then -1 else 1

def strcmp (a b : String) : Int := strcmp_chars a.data b.data

/-- Command handler. -/
def spadesx_plugin_on_command {σ : Type} (_server player : Nat) (command : String)
    (m : machine σ) : Option Int × machine σ :=
  if strcmp command "/restock" = 0 then
    match m.api with
    | none => (none, m)
    | some api =>
      let m1 := (call_player_restock api player m).2
      let m2 := (call_player_send_notice api player "Restocked!" m1).2
      (some PLUGIN_ALLOW, m2)
  else
    (some PLUGIN_DENY, m)

/-- Player connect. -/
def spadesx_plugin_on_player_connect {σ : Type} (_server player : Nat)
    (m : machine σ) : Option Unit × machine σ :=
  match m.api with
  | none => (none, m)
  | some api =>
    let r := call_player_get_name api player m
    let name := r.1
    let m1 := call_log_info api PLUGIN_NAME "Player %s connected" [.str name] r.2
    let m2 := (call_player_send_notice api player "Welcome to the Babel-style server!" m1).2
    let m3 := (call_player_send_notice api player
      "Type /restock to refill your blocks and grenades" m2).2
    let m4 := (call_player_send_notice api player "Headshots only mode enabled!" m3).2
    (some (), m4)

/-- Player disconnect. -/
def spadesx_plugin_on_player_disconnect {σ : Type} (_server player : Nat) (reason : String)
    (m : machine σ) : Option Unit × machine σ :=
  match m.api with
  | none => (none, m)
  | some api =>
    let r := call_player_get_name api player m
    let name := r.1
    let m1 := call_log_info api PLUGIN_NAME "Player %s disconnected: %s"
      [.str name, .str reason] r.2
    (some (), m1)

/-- The `switch (hit_type)` of `spadesx_plugin_on_player_hit`. -/
def hit_location (hit_type : Nat) : String :=
  match hit_type with
  | 0 => "torso"
  | 1 => "head"
  | 2 => "arms"
  | 3 => "legs"
  | 4 => "melee"
  | _ => "unknown"

/-- Player hit handler. -/
def spadesx_plugin_on_player_hit {σ : Type} (_server shooter victim hit_type _weapon : Nat)
    (m : machine σ) : Option Int × machine σ :=
  match m.api with
  | none => (none, m)
  | some api =>
    let r1 := call_player_get_name api shooter m
    let shooter_name := r1.1
    let r2 := call_player_get_name api victim r1.2
    let victim_name := r2.1
    let m3 := call_log_debug api PLUGIN_NAME "%s hit %s in the %s"
      [.str shooter_name, .str victim_name, .str (hit_location hit_type)] r2.2
    if hit_type ≠ 1 ∧ hit_type ≠ 4 then
      let m4 := (call_player_send_notice api shooter "Headshots only!" m3).2
      (some PLUGIN_DENY, m4)
    else
      (some PLUGIN_ALLOW, m3)

/-! ## Loops, machine arithmetic -/

/-- The loop `for (i = i0; cond(i); i++) body(i)` run for at most `fuel` rounds. -/
def c_for {S : Type} (cond : Int → Bool) (body : Int → S → S) : Nat → Int → S → S
  | 0, _, s => s
  | fuel + 1, i, s => if cond i then c_for cond body fuel (i + 1) (body i s) else s

/-- Reduction of an integer to the `int32_t` range (two's complement). -/
def wrap32 (v : Int) : Int := (v + 2 ^ 31) % 2 ^ 32 - 2 ^ 31

def INT32_MIN : Int := -(2 ^ 31)

/-- The conversion `(int32_t)f` of a binary32 given by its bit pattern: the
value truncated toward zero.  Where C leaves the conversion undefined (NaN,
infinities, values outside the `int32_t` range) the result is `INT32_MIN`, as
produced by the x86 conversion instruction. -/
def float_to_int32 (f : Nat) : Int :=
  let b := f % 2 ^ 32
  let sign := b / 2 ^ 31
  let e := b / 2 ^ 23 % 256
  let frac := b % 2 ^ 23
  if e = 255 then INT32_MIN
  else
    let sig : Nat := if e = 0 then frac else frac + 2 ^ 23
    let ex : Nat := if e = 0 then 1 else e
    let mag : Nat := if 150 ≤ ex then sig * 2 ^ (ex - 150) else sig / 2 ^ (150 - ex)
    let v : Int := if sign = 1 then -(mag : Int) else (mag : Int)
    if INT32_MIN ≤ v ∧ v < 2 ^ 31 then v else INT32_MIN

/-! ## template_plugin.c : lifecycle, server initialisation, tick -/

/-- The tracking loop of `spadesx_plugin_init`. -/
def init_tracker {σ : Type} (i : Int) (m : machine σ) : machine σ :=
  let tr := m.player_blocks i.toNat
  let tr1 := { tr with player_id := i.toNat % 256, has_block := 0 }
  { m with player_blocks := Function.update m.player_blocks i.toNat tr1 }

/-- Called when the plugin is loaded; `plugin_api` is `none` for a `NULL` table. -/
def spadesx_plugin_init {σ : Type} (_server : Nat) (plugin_api : Option (plugin_api σ))
    (m : machine σ) : Option Int × machine σ :=
  let m0 := { m with api := plugin_api }
  match m0.api with
  | none => (none, m0)
  | some api =>
    let m1 := call_log_info api PLUGIN_NAME "Initializing..." [] m0
    let m2 := call_log_debug api PLUGIN_NAME "API pointer: %p" [.ptr false] m1
    let m3 := c_for (fun i => i < 32) init_tracker 32 0 m2
    let m4 := call_log_info api PLUGIN_NAME
      "Loaded successfully! Player trail feature enabled." [] m3
    (some 0, m4)

/-- Called when the plugin is unloaded. -/
def spadesx_plugin_shutdown {σ : Type} (_server : Nat) (m : machine σ) :
    Option Unit × machine σ :=
  match m.api with
  | none => (none, m)
  | some api => (some (), call_log_info api PLUGIN_NAME "Shutting down" [] m)

/-- The inner loop body of the platform creation. -/
def platform_block {σ : Type} (t : plugin_api σ) (server : Nat) (x y : Int)
    (m : machine σ) : machine σ :=
  (call_init_add_block t server x y 1 0xFF00FFFF m).2

/-- The outer loop body of the platform creation: one row of blocks. -/
def platform_row {σ : Type} (t : plugin_api σ) (server : Nat) (x : Int)
    (m : machine σ) : machine σ :=
  c_for (fun y => y ≤ 272) (platform_block t server x) 33 240 m

/-- Server initialization - set up the map.  `plugin_api` is the table passed
to the callback, `m.api` the table stored by `spadesx_plugin_init`. -/
def spadesx_plugin_on_server_init {σ : Type} (server : Nat)
    (plugin_api : Option (plugin_api σ)) (m : machine σ) : Option Unit × machine σ :=
  match m.api with
  | none => (none, m)
  | some api =>
    let m1 := call_log_info api PLUGIN_NAME "Initializing map..." [] m
    match plugin_api with
    | none => (none, m1)
    | some papi =>
      let r := call_get_map papi server m1
      let map := r.1
      if map = 0 then
        (some (), call_log_error api PLUGIN_NAME "Map is NULL!" [] r.2)
      else
        let m2 := call_log_info api PLUGIN_NAME "Creating platform..." [] r.2
        let m3 := c_for (fun x => x ≤ 306) (platform_row papi server) 101 206 m2
        let m4 := call_log_info api PLUGIN_NAME "Setting intel positions..." [] m3
        let r5 := call_map_find_top_block papi map 255 255 m4
        let intel_z := r5.1
        let m6 := (call_init_set_intel_position papi server 0 255 255 intel_z r5.2).2
        let m7 := (call_init_set_intel_position papi server 1 255 255 intel_z m6).2
        (some (), call_log_info api PLUGIN_NAME "Map initialization complete!" [] m7)

/-- The loop body of `spadesx_plugin_on_tick` for the player slot `i`. -/
def tick_player {σ : Type} (api : plugin_api σ) (server : Nat) (i : Int)
    (m : machine σ) : machine σ :=
  let r := call_get_player api server i.toNat m
  let player := r.1
  if player = 0 then
    let m0 := r.2
    let tr0 := m0.player_blocks i.toNat
    let tr1 := { tr0 with has_block := 0 }
    { m0 with player_blocks := Function.update m0.player_blocks i.toNat tr1 }
  else
    let rp := call_player_get_position api player r.2
    let pos := rp.1
    let block_x := float_to_int32 pos.x
    let block_y := float_to_int32 pos.y
    let block_z := wrap32 (float_to_int32 pos.z - 3)
    let tr := rp.2.player_blocks i.toNat
    let position_changed : Bool :=
      if tr.has_block ≠ 0 then
        (tr.block_x != block_x || tr.block_y != block_y || tr.block_z != block_z)
      else true
    if position_changed then
      let rm := call_get_map api server rp.2
      let map := rm.1
      let rv := call_map_is_valid_pos api map block_x block_y block_z rm.2
      if rv.1 ≠ 0 then
        let color : Nat := 0xFFFFFF00
        let m1 := (call_map_set_block api server block_x block_y block_z color rv.2).2
        let tr1 := m1.player_blocks i.toNat
        let tr2 :=
          { tr1 with block_x := block_x, block_y := block_y, block_z := block_z, has_block := 1 }
        { m1 with player_blocks := Function.update m1.player_blocks i.toNat tr2 }
      else rv.2
    else rp.2

/-- Tick handler. -/
def spadesx_plugin_on_tick {σ : Type} (server : Nat) (m : machine σ) :
    Option Unit × machine σ :=
  let m0 := { m with tick_counter := wrap32 (m.tick_counter + 1) }
  match m0.api with
  | none => (none, m0)
  | some api => (some (), c_for (fun i => i < 32) (tick_player api server) 32 0 m0)

/-! ## Runs of the callbacks -/

/-- The exported entry points of the plugin. -/
inductive callback where
  | init
  | shutdown
  | on_server_init
  | on_block_destroy
  | on_block_place
  | on_command
  | on_player_connect
  | on_player_disconnect
  | on_player_hit
  | on_tick
deriving DecidableEq, Repr

/-- One invocation of an entry point by the server, with its arguments. -/
inductive plugin_event (σ : Type) where
  | init (server : Nat) (plugin_api : Option (plugin_api σ))
  | shutdown (server : Nat)
  | on_server_init (server : Nat) (plugin_api : Option (plugin_api σ))
  | on_block_destroy (server player tool : Nat) (block : block_t)
  | on_block_place (server player : Nat) (block : block_t)
  | on_command (server player : Nat) (command : String)
  | on_player_connect (server player : Nat)
  | on_player_disconnect (server player : Nat) (reason : String)
  | on_player_hit (server shooter victim hit_type weapon : Nat)
  | on_tick (server : Nat)

/-- The entry point an event invokes. -/
def plugin_event.target {σ : Type} : plugin_event σ → callback
  | .init _ _ => .init
  | .shutdown _ => .shutdown
  | .on_server_init _ _ => .on_server_init
  | .on_block_destroy _ _ _ _ => .on_block_destroy
  | .on_block_place _ _ _ => .on_block_place
  | .on_command _ _ _ => .on_command
  | .on_player_connect _ _ => .on_player_connect
  | .on_player_disconnect _ _ _ => .on_player_disconnect
  | .on_player_hit _ _ _ _ _ => .on_player_hit
  | .on_tick _ => .on_tick

/-- Invoke the entry point of an event; the flag tells whether it returned. -/
def dispatch {σ : Type} (e : plugin_event σ) (m : machine σ) : Bool × machine σ :=
  match e with
  | .init server t =>
    let r := spadesx_plugin_init server t m; (r.1.isSome, r.2)
  | .shutdown server =>
    let r := spadesx_plugin_shutdown server m; (r.1.isSome, r.2)
  | .on_server_init server t =>
    let r := spadesx_plugin_on_server_init server t m; (r.1.isSome, r.2)
  | .on_block_destroy server player tool block =>
    let r := spadesx_plugin_on_block_destroy server player tool block m; (r.1.isSome, r.2)
  | .on_block_place server player block =>
    let r := spadesx_plugin_on_block_place server player block m; (r.1.isSome, r.2.2)
  | .on_command server player command =>
    let r := spadesx_plugin_on_command server player command m; (r.1.isSome, r.2)
  | .on_player_connect server player =>
    let r := spadesx_plugin_on_player_connect server player m; (r.1.isSome, r.2)
  | .on_player_disconnect server player reason =>
    let r := spadesx_plugin_on_player_disconnect server player reason m; (r.1.isSome, r.2)
  | .on_player_hit server shooter victim hit_type weapon =>
    let r := spadesx_plugin_on_player_hit server shooter victim hit_type weapon m
    (r.1.isSome, r.2)
  | .on_tick server =>
    let r := spadesx_plugin_on_tick server m; (r.1.isSome, r.2)

/-- A run in progress: the machine, every call made so far together with the
entry point that made it, and whether an entry point stopped on a `NULL` table
(after which nothing runs any more). -/
structure run_state (σ : Type) where
  m : machine σ
  log : List (callback × api_call)
  crashed : Bool

/-- Process one event: the calls of this invocation are collected from an empty
record and entered in the log under the invoked entry point. -/
def run_step {σ : Type} (r : run_state σ) (e : plugin_event σ) : run_state σ :=
  if r.crashed then r
  else
    let out := dispatch e { r.m with calls := [] }
    { m := out.2
      log := r.log ++ out.2.calls.map (fun c => (e.target, c))
      crashed := !out.1 }

/-- Process a sequence of events from a machine with an empty log. -/
def run {σ : Type} (es : List (plugin_event σ)) (m : machine σ) : run_state σ :=
  es.foldl run_step { m := m, log := [], crashed := false }

/-- The bootstrap-only entries of the table. -/
def is_bootstrap_only : api_call → Bool
  | .init_add_block _ _ _ _ _ => true
  | .init_set_intel_position _ _ _ _ _ => true
  | _ => false

/-- The replication-triggering mutators of the table. -/
def is_replication_mutator : api_call → Bool
  | .map_set_block _ _ _ _ _ => true
  | .map_remove_block _ _ _ _ => true
  | .player_set_color_broadcast _ _ _ => true
  | _ => false

/-- What the bootstrap window allows the entry point `cb` to call. -/
def window_allows (cb : callback) (c : api_call) : Bool :=
  (!is_bootstrap_only c || decide (cb = .on_server_init)) &&
  (!decide (cb = .on_server_init) || !is_replication_mutator c)

/-- Every logged call is one the bootstrap window allows its caller. -/
def respects_bootstrap_window (log : List (callback × api_call)) : Prop :=
  ∀ e ∈ log, window_allows e.1 e.2 = true

/-! ## Hosts -/

/-- A table whose entries leave the host state alone and return zero values. -/
def idle_api (σ : Type) : plugin_api σ where
  get_player := fun _ _ h => (0, h)
  player_get_name := fun _ h => ("", h)
  player_get_team := fun _ _ h => (⟨0, "", 0⟩, h)
  player_get_tool := fun _ h => (0, h)
  player_get_blocks := fun _ h => (0, h)
  player_get_grenades := fun _ h => (0, h)
  player_get_color := fun _ h => (0, h)
  player_set_color := fun _ _ h => (0, h)
  player_set_color_broadcast := fun _ _ _ h => (0, h)
  player_restock := fun _ h => (0, h)
  player_send_notice := fun _ _ h => (0, h)
  player_kill := fun _ h => (0, h)
  player_set_hp := fun _ _ h => (0, h)
  player_get_hp := fun _ h => (0, h)
  player_get_position := fun _ h => (⟨0, 0, 0⟩, h)
  player_set_position := fun _ _ h => (0, h)
  get_map := fun _ h => (0, h)
  map_get_block := fun _ _ _ _ h => (0, h)
  map_set_block := fun _ _ _ _ _ h => (0, h)
  map_remove_block := fun _ _ _ _ h => (0, h)
  map_find_top_block := fun _ _ _ h => (0, h)
  map_is_valid_pos := fun _ _ _ _ h => (0, h)
  init_add_block := fun _ _ _ _ _ h => (0, h)
  init_set_intel_position := fun _ _ _ _ _ h => (0, h)
  broadcast_message := fun _ _ h => (0, h)
  register_command := fun _ _ _ _ _ h => (0, h)
  log_message := fun _ _ _ _ h => h
  log_debug := fun _ _ _ h => h
  log_info := fun _ _ _ h => h
  log_warning := fun _ _ _ h => h
  log_error := fun _ _ _ h => h

/-- What a host keeps about one player, as far as the handlers observe it. -/
structure host_player where
  team : plugin_team_t
  color : Nat
  blocks : Nat
  grenades : Nat
  notices : List String
deriving DecidableEq, Repr

/-- A host state with a player table (by handle) and anything else in `rest`. -/
structure host_state (ρ : Type) where
  players : Nat → host_player
  rest : ρ

/-- Replace the record of one player. -/
def host_state.set_player {ρ : Type} (h : host_state ρ) (player : Nat) (p : host_player) :
    host_state ρ :=
  { h with players := Function.update h.players player p }

/-- Modelled from the spec: the host functions behind the player entries
`player_get_team`, `player_get_color`, `player_get_blocks`,
`player_get_grenades`, `player_set_color_broadcast`, `player_restock` and
`player_send_notice`, whose code is not part of the plugin sources.  On a
non-`NULL` handle the queries return the player's value and change nothing,
restock sets blocks to exactly 50 and grenades to exactly 3, a notice is
delivered to that player, and the broadcast sets the player's color; each
mutator then returns `PLUGIN_OK`.  On the `NULL` handle, and for every other
entry, the table behaves as `base` does. -/
def contract_api {ρ : Type} (base : plugin_api (host_state ρ)) : plugin_api (host_state ρ) :=
  { base with
    player_get_team := fun server player h =>
      if player = 0 then base.player_get_team server player h else ((h.players player).team, h)
    player_get_color := fun player h =>
      if player = 0 then base.player_get_color player h else ((h.players player).color, h)
    player_get_blocks := fun player h =>
      if player = 0 then base.player_get_blocks player h else ((h.players player).blocks, h)
    player_get_grenades := fun player h =>
      if player = 0 then base.player_get_grenades player h
      else ((h.players player).grenades, h)
    player_set_color_broadcast := fun server player color h =>
      if player = 0 then base.player_set_color_broadcast server player color h
      else (PLUGIN_OK, h.set_player player { (h.players player) with color := color })
    player_restock := fun player h =>
      if player = 0 then base.player_restock player h
      else (PLUGIN_OK, h.set_player player { (h.players player) with blocks := 50, grenades := 3 })
    player_send_notice := fun player message h =>
      if player = 0 then base.player_send_notice player message h
      else (PLUGIN_OK, h.set_player player
        { (h.players player) with notices := (h.players player).notices ++ [message] }) }

/-- A machine before `spadesx_plugin_init`: no table, zeroed statics. -/
def fresh_machine {σ : Type} (h : σ) : machine σ :=
  { api := none
    player_blocks := fun _ => ⟨0, 0, 0, 0, 0⟩
    tick_counter := 0
    host := h
    calls := [] }

/-- A machine after `spadesx_plugin_init` stored the table `t`. -/
def loaded_machine {σ : Type} (t : plugin_api σ) (h : σ) : machine σ :=
  { fresh_machine h with api := some t }

/-- A player of team 0 with the given color and stock, and no notice yet. -/
def sample_player (color blocks grenades : Nat) : host_player :=
  { team := ⟨0, "Blue", 0xFF0000FF⟩, color := color, blocks := blocks, grenades := grenades,
    notices := [] }

/-- A host in which every handle denotes the same sample player. -/
def sample_host (color blocks grenades : Nat) : host_state Unit :=
  { players := fun _ => sample_player color blocks grenades, rest := () }

/-- A table like `idle_api` whose `get_map` returns a map (handle 1). -/
def mapped_api : plugin_api Unit :=
  { idle_api Unit with get_map := fun _ h => (1, h) }

/-- The host state in which `spadesx_plugin_on_block_place` asks for the
player's block count: after the team and color queries and, when the player's
color differs from the team color, the color broadcast. -/
def host_at_blocks_query {σ : Type} (api : plugin_api σ) (server player : Nat) (h : σ) : σ :=
  let team := api.player_get_team server player h
  let col := api.player_get_color player team.2
  if col.1 ≠ team.1.color then
    (api.player_set_color_broadcast server player team.1.color col.2).2
  else col.2

/-- Every call recorded in the machine is one the bootstrap window allows the
entry point `cb`. -/
def calls_within {σ : Type} (cb : callback) (m : machine σ) : Prop :=
  ∀ c ∈ m.calls, window_allows cb c = true

/-- The enumerators of `plugin_result_t`, in the order of the header. -/
inductive plugin_result_t where
  | OK
  | ALLOW
  | DENY
  | ERROR
  | ERROR_INVALID_PARAM
  | ERROR_NULL_POINTER
  | ERROR_OUT_OF_RANGE
  | ERROR_NOT_FOUND
  | ERROR_PERMISSION_DENIED
  | ERROR_INVALID_STATE
  | ERROR_PLAYER_NOT_FOUND
  | ERROR_PLAYER_DEAD
  | ERROR_PLAYER_DISCONNECTED
  | ERROR_INVALID_TEAM
  | ERROR_INVALID_HP
  | ERROR_MAP_OUT_OF_BOUNDS
  | ERROR_MAP_INVALID_COLOR
  | ERROR_MAP_NO_BLOCK
  | ERROR_CMD_ALREADY_REGISTERED
  | ERROR_CMD_INVALID_NAME
  | ERROR_CMD_TOO_MANY
deriving DecidableEq, Repr

/-- The value the header gives an enumerator. -/
def result_value : plugin_result_t → Int
  | .OK => PLUGIN_OK
  | .ALLOW => PLUGIN_ALLOW
  | .DENY => PLUGIN_DENY
  | .ERROR => PLUGIN_ERROR
  | .ERROR_INVALID_PARAM => PLUGIN_ERROR_INVALID_PARAM
  | .ERROR_NULL_POINTER => PLUGIN_ERROR_NULL_POINTER
  | .ERROR_OUT_OF_RANGE => PLUGIN_ERROR_OUT_OF_RANGE
  | .ERROR_NOT_FOUND => PLUGIN_ERROR_NOT_FOUND
  | .ERROR_PERMISSION_DENIED => PLUGIN_ERROR_PERMISSION_DENIED
  | .ERROR_INVALID_STATE => PLUGIN_ERROR_INVALID_STATE
  | .ERROR_PLAYER_NOT_FOUND => PLUGIN_ERROR_PLAYER_NOT_FOUND
  | .ERROR_PLAYER_DEAD => PLUGIN_ERROR_PLAYER_DEAD
  | .ERROR_PLAYER_DISCONNECTED => PLUGIN_ERROR_PLAYER_DISCONNECTED
  | .ERROR_INVALID_TEAM => PLUGIN_ERROR_INVALID_TEAM
  | .ERROR_INVALID_HP => PLUGIN_ERROR_INVALID_HP
  | .ERROR_MAP_OUT_OF_BOUNDS => PLUGIN_ERROR_MAP_OUT_OF_BOUNDS
  | .ERROR_MAP_INVALID_COLOR => PLUGIN_ERROR_MAP_INVALID_COLOR
  | .ERROR_MAP_NO_BLOCK => PLUGIN_ERROR_MAP_NO_BLOCK
  | .ERROR_CMD_ALREADY_REGISTERED => PLUGIN_ERROR_CMD_ALREADY_REGISTERED
  | .ERROR_CMD_INVALID_NAME => PLUGIN_ERROR_CMD_INVALID_NAME
  | .ERROR_CMD_TOO_MANY => PLUGIN_ERROR_CMD_TOO_MANY

/-- The identifier of an enumerator in the header. -/
def result_name : plugin_result_t → String
  | .OK => "PLUGIN_OK"
  | .ALLOW => "PLUGIN_ALLOW"
  | .DENY => "PLUGIN_DENY"
  | .ERROR => "PLUGIN_ERROR"
  | .ERROR_INVALID_PARAM => "PLUGIN_ERROR_INVALID_PARAM"
  | .ERROR_NULL_POINTER => "PLUGIN_ERROR_NULL_POINTER"
  | .ERROR_OUT_OF_RANGE => "PLUGIN_ERROR_OUT_OF_RANGE"
  | .ERROR_NOT_FOUND => "PLUGIN_ERROR_NOT_FOUND"
  | .ERROR_PERMISSION_DENIED => "PLUGIN_ERROR_PERMISSION_DENIED"
  | .ERROR_INVALID_STATE => "PLUGIN_ERROR_INVALID_STATE"
  | .ERROR_PLAYER_NOT_FOUND => "PLUGIN_ERROR_PLAYER_NOT_FOUND"
  | .ERROR_PLAYER_DEAD => "PLUGIN_ERROR_PLAYER_DEAD"
  | .ERROR_PLAYER_DISCONNECTED => "PLUGIN_ERROR_PLAYER_DISCONNECTED"
  | .ERROR_INVALID_TEAM => "PLUGIN_ERROR_INVALID_TEAM"
  | .ERROR_INVALID_HP => "PLUGIN_ERROR_INVALID_HP"
  | .ERROR_MAP_OUT_OF_BOUNDS => "PLUGIN_ERROR_MAP_OUT_OF_BOUNDS"
  | .ERROR_MAP_INVALID_COLOR => "PLUGIN_ERROR_MAP_INVALID_COLOR"
  | .ERROR_MAP_NO_BLOCK => "PLUGIN_ERROR_MAP_NO_BLOCK"
  | .ERROR_CMD_ALREADY_REGISTERED => "PLUGIN_ERROR_CMD_ALREADY_REGISTERED"
  | .ERROR_CMD_INVALID_NAME => "PLUGIN_ERROR_CMD_INVALID_NAME"
  | .ERROR_CMD_TOO_MANY => "PLUGIN_ERROR_CMD_TOO_MANY"

/-- Whether the identifier of an enumerator starts with `PLUGIN_ERROR`. -/
def named_error (e : plugin_result_t) : Bool :=
  List.isPrefixOf "PLUGIN_ERROR".data (result_name e).data

/-- The sections of the enumeration in the header. -/
inductive result_section where
  | success
  | general
  | player
  | map
  | command
deriving DecidableEq, Repr

/-- The section of the header under which an enumerator is declared. -/
def result_section_of : plugin_result_t → result_section
  | .OK => .success
  | .ALLOW => .success
  | .DENY => .success
  | .ERROR => .general
  | .ERROR_INVALID_PARAM => .general
  | .ERROR_NULL_POINTER => .general
  | .ERROR_OUT_OF_RANGE => .general
  | .ERROR_NOT_FOUND => .general
  | .ERROR_PERMISSION_DENIED => .general
  | .ERROR_INVALID_STATE => .general
  | .ERROR_PLAYER_NOT_FOUND => .player
  | .ERROR_PLAYER_DEAD => .player
  | .ERROR_PLAYER_DISCONNECTED => .player
  | .ERROR_INVALID_TEAM => .player
  | .ERROR_INVALID_HP => .player
  | .ERROR_MAP_OUT_OF_BOUNDS => .map
  | .ERROR_MAP_INVALID_COLOR => .map
  | .ERROR_MAP_NO_BLOCK => .map
  | .ERROR_CMD_ALREADY_REGISTERED => .command
  | .ERROR_CMD_INVALID_NAME => .command
  | .ERROR_CMD_TOO_MANY => .command

/-- The range of values the header's section comment announces: success codes
are not negative, general errors are -1 to -99, player errors -100 to -199,
map errors -200 to -299, command errors -300 to -399. -/
def in_section_range (s : result_section) (v : Int) : Bool :=
  match s with
  | .success => decide (0 ≤ v)
  | .general => decide (-99 ≤ v) && decide (v ≤ -1)
  | .player => decide (-199 ≤ v) && decide (v ≤ -100)
  | .map => decide (-299 ≤ v) && decide (v ≤ -200)
  | .command => decide (-399 ≤ v) && decide (v ≤ -300)

/-- All enumerators of `plugin_result_t`, in the order of the header. -/
def all_results : List plugin_result_t :=
  [.OK, .ALLOW, .DENY, .ERROR, .ERROR_INVALID_PARAM, .ERROR_NULL_POINTER, .ERROR_OUT_OF_RANGE,
    .ERROR_NOT_FOUND, .ERROR_PERMISSION_DENIED, .ERROR_INVALID_STATE,
    .ERROR_PLAYER_NOT_FOUND, .ERROR_PLAYER_DEAD, .ERROR_PLAYER_DISCONNECTED,
    .ERROR_INVALID_TEAM, .ERROR_INVALID_HP, .ERROR_MAP_OUT_OF_BOUNDS,
    .ERROR_MAP_INVALID_COLOR, .ERROR_MAP_NO_BLOCK, .ERROR_CMD_ALREADY_REGISTERED,
    .ERROR_CMD_INVALID_NAME, .ERROR_CMD_TOO_MANY]

/-- The calls of `init_add_block`. -/
def is_init_add_block : api_call → Bool
  | .init_add_block _ _ _ _ _ => true
  | _ => false

/-- The calls of `map_set_block`. -/
def is_map_set_block : api_call → Bool
  | .map_set_block _ _ _ _ _ => true
  | _ => false

/-- The calls recorded by `n` rounds of a loop from index `i` whose round `j`
records the calls `d j`. -/
def c_for_calls (d : Int → List api_call) : Nat → Int → List api_call
  | 0, _ => []
  | n + 1, i => d i ++ c_for_calls d n (i + 1)

/-- The `init_add_block` call of the platform creation for the column (x, y). -/
def platform_call (server : Nat) (x y : Int) : api_call :=
  api_call.init_add_block server x y 1 0xFF00FFFF

/-- The calls recorded by the two platform loops, in order. -/
def platform_calls (server : Nat) : List api_call :=
  c_for_calls (fun x => c_for_calls (fun y => [platform_call server x y]) 33 240) 101 206

/-- The machine when the loop of `spadesx_plugin_on_tick` reaches the player
slot `k`: the tick counter is incremented and the slots before `k` are done. -/
def tick_machine_at {σ : Type} (api : plugin_api σ) (server : Nat) (m : machine σ)
    (k : Nat) : machine σ :=
  c_for (fun i => i < 32) (tick_player api server) k 0
    { m with tick_counter := wrap32 (m.tick_counter + 1) }

/-- The calls that the loop body of `spadesx_plugin_on_tick` adds for the slot
`k` when it starts from the machine `m`. -/
def tick_slot_calls {σ : Type} (api : plugin_api σ) (server k : Nat)
    (m : machine σ) : List api_call :=
  (tick_player api server (k : Int) m).calls.drop m.calls.length

/-- A table with a player in every slot, a map, and every position valid. -/
def trail_api : plugin_api Unit :=
  { idle_api Unit with
    get_player := fun _ player_id h => (player_id + 1, h)
    get_map := fun _ h => (1, h)
    map_is_valid_pos := fun _ _ _ _ h => (1, h) }

/-- What `get_player` returns for the slot `k` in the machine `m`. -/
def slot_player {σ : Type} (api : plugin_api σ) (server k : Nat) (m : machine σ) : Nat :=
  (api.get_player server k m.host).1

/-- What `player_get_position` then returns for that player. -/
def slot_position {σ : Type} (api : plugin_api σ) (server k : Nat) (m : machine σ) :
    vector3f_t :=
  (api.player_get_position (slot_player api server k m) (api.get_player server k m.host).2).1

/-- The player's x truncated to an integer. -/
def slot_block_x {σ : Type} (api : plugin_api σ) (server k : Nat) (m : machine σ) : Int :=
  float_to_int32 (slot_position api server k m).x

/-- The player's y truncated to an integer. -/
def slot_block_y {σ : Type} (api : plugin_api σ) (server k : Nat) (m : machine σ) : Int :=
  float_to_int32 (slot_position api server k m).y

/-- The player's z truncated to an integer, minus 3, as an `int32_t`. -/
def slot_block_z {σ : Type} (api : plugin_api σ) (server k : Nat) (m : machine σ) : Int :=
  wrap32 (float_to_int32 (slot_position api server k m).z - 3)

/-- What `get_map` returns after the position query of the slot. -/
def slot_map {σ : Type} (api : plugin_api σ) (server k : Nat) (m : machine σ) : Nat :=
  (api.get_map server
    (api.player_get_position (slot_player api server k m)
      (api.get_player server k m.host).2).2).1

/-- What `map_is_valid_pos` returns for the block position of the slot. -/
def slot_valid {σ : Type} (api : plugin_api σ) (server k : Nat) (m : machine σ) : Int :=
  (api.map_is_valid_pos (slot_map api server k m) (slot_block_x api server k m)
    (slot_block_y api server k m) (slot_block_z api server k m)
    (api.get_map server
      (api.player_get_position (slot_player api server k m)
        (api.get_player server k m.host).2).2).2).1

/-! ## Basic facts -/

theorem calls_invoke {σ α : Type} (c : api_call) (f : σ → α × σ) (m : machine σ) :
    (invoke c f m).2.calls = m.calls ++ [c] := rfl

theorem calls_invoke_void {σ : Type} (c : api_call) (f : σ → σ) (m : machine σ) :
    (invoke_void c f m).calls = m.calls ++ [c] := rfl

theorem fst_invoke {σ α : Type} (c : api_call) (f : σ → α × σ) (m : machine σ) :
    (invoke c f m).1 = (f m.host).1 := rfl

theorem c_for_fuel_enough {S : Type} (cond : Int → Bool) (body : Int → S → S) (n k : Nat)
    (i : Int) (s : S) (hstop : cond (i + n) = false) :
    c_for cond body (n + k) i s = c_for cond body n i s := by
  induction n generalizing i s with
  | zero =>
    have h0 : cond i = false := by simpa using hstop
    cases k with
    | zero => rfl
    | succ k => simp [c_for, h0]
  | succ n ih =>
    have hstep : cond (i + 1 + (n : Int)) = false := by
      have he : i + 1 + (n : Int) = i + ((n + 1 : Nat) : Int) := by push_cast; ring
      rw [he]
      exact hstop
    rw [Nat.add_right_comm n 1 k]
    cases hc : cond i with
    | false => simp [c_for, hc]
    | true => simp [c_for, hc, ih (i + 1) (body i s) hstep]

theorem platform_loops_fuel_enough {σ : Type} (t : plugin_api σ) (server : Nat) (x : Int)
    (k : Nat) (m : machine σ) :
    c_for (fun y => y ≤ 272) (platform_block t server x) (33 + k) 240 m =
        platform_row t server x m ∧
    c_for (fun x => x ≤ 306) (platform_row t server) (101 + k) 206 m =
        c_for (fun x => x ≤ 306) (platform_row t server) 101 206 m ∧
    c_for (fun i => i < 32) (tick_player t server) (32 + k) 0 m =
        c_for (fun i => i < 32) (tick_player t server) 32 0 m :=
  ⟨c_for_fuel_enough _ _ 33 k 240 m (by decide),
    c_for_fuel_enough _ _ 101 k 206 m (by decide),
    c_for_fuel_enough _ _ 32 k 0 m (by decide)⟩

theorem float_to_int32_samples :
    float_to_int32 0x3F800000 = 1 ∧ float_to_int32 0x437F8000 = 255 ∧
    float_to_int32 0xC06CCCCD = -3 ∧ float_to_int32 0x00000000 = 0 ∧
    float_to_int32 0x7FC00000 = INT32_MIN ∧ float_to_int32 0x4F000000 = INT32_MIN := by
  decide

theorem strcmp_chars_eq_zero_iff (a b : List Char) : strcmp_chars a b = 0 ↔ a = b := by
  induction a generalizing b with
  | nil => cases b <;> simp [strcmp_chars]
  | cons x xs ih =>
    cases b with
    | nil => simp [strcmp_chars]
    | cons y ys =>
      by_cases hxy : x = y
      · simp [strcmp_chars, hxy, ih]
      · by_cases hlt : x.toNat < y.toNat <;> simp [strcmp_chars, hxy, hlt]

theorem strcmp_eq_zero_iff (a b : String) : strcmp a b = 0 ↔ a = b := by
  unfold strcmp
  rw [strcmp_chars_eq_zero_iff]
  constructor
  · intro h
    exact String.ext h
  · intro h
    rw [h]

theorem is_platform_of_box (x y z : Int) (hx : 206 ≤ x ∧ x ≤ 306) (hy : 240 ≤ y ∧ y ≤ 272)
    (hz : 0 ≤ z ∧ z ≤ 2) : is_platform x y z = true := by
  obtain ⟨hx1, hx2⟩ := hx
  obtain ⟨hy1, hy2⟩ := hy
  obtain ⟨hz1, hz2⟩ := hz
  have hz3 : z = 0 ∨ z = 1 ∨ z = 2 := by omega
  unfold is_platform
  rcases hz3 with h | h | h
  · subst h
    simp [hx1, hx2, hy1, hy2]
  · subst h
    have h1 : (205 : Int) ≤ x := by omega
    have h2 : x ≤ 307 := by omega
    have h3 : (239 : Int) ≤ y := by omega
    have h4 : y ≤ 273 := by omega
    simp [hx1, hx2, hy1, hy2, h1, h2, h3, h4]
  · subst h
    simp [hx1, hx2, hy1, hy2]

/-! ## Claims -/

/-- C1: a block-destroy event on a block with 206 <= x <= 306, 240 <= y <= 272
and 0 <= z <= 2 is denied for every server, player and tool (the spade
included), and all the handler does is send one notice to that player: the
record of calls grows by exactly that `player_send_notice`, so no
`map_remove_block` or `map_set_block` is issued, and the plugin's statics stay
as they were.  The plugin is loaded (`api` holds a table). -/
theorem on_block_destroy_platform_box_denied {σ : Type} (api : plugin_api σ)
    (server player tool : Nat) (block : block_t) (m : machine σ)
    (hapi : m.api = some api)
    (hx : 206 ≤ block.x ∧ block.x ≤ 306) (hy : 240 ≤ block.y ∧ block.y ≤ 272)
    (hz : 0 ≤ block.z ∧ block.z ≤ 2) :
    spadesx_plugin_on_block_destroy server player tool block m =
      (some PLUGIN_DENY,
        { m with
          host := (api.player_send_notice player NOTICE_PLATFORM m.host).2
          calls := m.calls ++ [api_call.player_send_notice player NOTICE_PLATFORM] }) := by
  have hp := is_platform_of_box block.x block.y block.z hx hy hz
  simp [spadesx_plugin_on_block_destroy, hp, hapi, call_player_send_notice, invoke]

theorem on_block_destroy_platform_box_denied_witness :
    (loaded_machine (idle_api Unit) ()).api = some (idle_api Unit) ∧
    ((206 : Int) ≤ (block_t.mk 250 256 1 0).x ∧ (block_t.mk 250 256 1 0).x ≤ 306) ∧
    ((240 : Int) ≤ (block_t.mk 250 256 1 0).y ∧ (block_t.mk 250 256 1 0).y ≤ 272) ∧
    ((0 : Int) ≤ (block_t.mk 250 256 1 0).z ∧ (block_t.mk 250 256 1 0).z ≤ 2) ∧
    spadesx_plugin_on_block_destroy 1 7 TOOL_SPADE (block_t.mk 250 256 1 0)
        (loaded_machine (idle_api Unit) ()) =
      (some PLUGIN_DENY,
        { loaded_machine (idle_api Unit) () with
          host := ((idle_api Unit).player_send_notice 7 NOTICE_PLATFORM
            (loaded_machine (idle_api Unit) ()).host).2
          calls := (loaded_machine (idle_api Unit) ()).calls ++
            [api_call.player_send_notice 7 NOTICE_PLATFORM] }) :=
  ⟨rfl, by decide, by decide, by decide,
    on_block_destroy_platform_box_denied (idle_api Unit) 1 7 TOOL_SPADE (block_t.mk 250 256 1 0)
      (loaded_machine (idle_api Unit) ()) rfl (by decide) (by decide) (by decide)⟩

/-- C2: on the command string "/restock" the command handler of a loaded
plugin returns `PLUGIN_ALLOW` and makes exactly two calls, one
`player_restock` for the player followed by one `player_send_notice` with the
text "Restocked!", for every host; and on a host whose player entries follow
their documented contract the player then has exactly 50 blocks and 3
grenades, whatever the counts were, and has one more notice, "Restocked!". -/
theorem on_command_restock_handled (server player : Nat) :
    (∀ (σ : Type) (api : plugin_api σ) (m : machine σ), m.api = some api →
      spadesx_plugin_on_command server player "/restock" m =
        (some PLUGIN_ALLOW,
          { m with
            host := (api.player_send_notice player "Restocked!"
              (api.player_restock player m.host).2).2
            calls := m.calls ++ [api_call.player_restock player,
              api_call.player_send_notice player "Restocked!"] })) ∧
    (∀ (ρ : Type) (base : plugin_api (host_state ρ)) (m : machine (host_state ρ)),
      m.api = some (contract_api base) → player ≠ 0 →
      ((spadesx_plugin_on_command server player "/restock" m).2.host.players player).blocks = 50 ∧
      ((spadesx_plugin_on_command server player "/restock" m).2.host.players player).grenades = 3 ∧
      ((spadesx_plugin_on_command server player "/restock" m).2.host.players player).notices =
        (m.host.players player).notices ++ ["Restocked!"]) := by
  constructor
  · intro σ api m hapi
    simp [spadesx_plugin_on_command, strcmp_eq_zero_iff, hapi, call_player_send_notice,
      call_player_restock, invoke]
  · intro ρ base m hapi hp
    simp [spadesx_plugin_on_command, strcmp_eq_zero_iff, hapi, call_player_send_notice,
      call_player_restock, invoke, contract_api, hp, host_state.set_player]

theorem on_command_restock_handled_witness :
    ((loaded_machine (idle_api Unit) ()).api = some (idle_api Unit) ∧
      spadesx_plugin_on_command 1 7 "/restock" (loaded_machine (idle_api Unit) ()) =
        (some PLUGIN_ALLOW,
          { loaded_machine (idle_api Unit) () with
            host := ((idle_api Unit).player_send_notice 7 "Restocked!"
              ((idle_api Unit).player_restock 7 (loaded_machine (idle_api Unit) ()).host).2).2
            calls := (loaded_machine (idle_api Unit) ()).calls ++
              [api_call.player_restock 7, api_call.player_send_notice 7 "Restocked!"] })) ∧
    ((loaded_machine (contract_api (idle_api (host_state Unit))) (sample_host 0 4 1)).api =
        some (contract_api (idle_api (host_state Unit))) ∧ (7 : Nat) ≠ 0 ∧
      ((spadesx_plugin_on_command 1 7 "/restock"
        (loaded_machine (contract_api (idle_api (host_state Unit)))
          (sample_host 0 4 1))).2.host.players 7).blocks = 50 ∧
      ((spadesx_plugin_on_command 1 7 "/restock"
        (loaded_machine (contract_api (idle_api (host_state Unit)))
          (sample_host 0 4 1))).2.host.players 7).grenades = 3 ∧
      ((spadesx_plugin_on_command 1 7 "/restock"
        (loaded_machine (contract_api (idle_api (host_state Unit)))
          (sample_host 0 4 1))).2.host.players 7).notices =
        ((loaded_machine (contract_api (idle_api (host_state Unit)))
          (sample_host 0 4 1)).host.players 7).notices ++ ["Restocked!"]) :=
  ⟨⟨rfl, (on_command_restock_handled 1 7).1 Unit (idle_api Unit)
      (loaded_machine (idle_api Unit) ()) rfl⟩,
    ⟨rfl, by decide, (on_command_restock_handled 1 7).2 Unit (idle_api (host_state Unit))
      (loaded_machine (contract_api (idle_api (host_state Unit))) (sample_host 0 4 1))
      rfl (by decide)⟩⟩

/-- C3: when the block-place handler of a loaded plugin returns, the block's
color is the color of the team that `player_get_team` returned for the player,
whatever color was submitted, its x, y and z are unchanged, and the handler
returns `PLUGIN_ALLOW`. -/
theorem on_block_place_forces_team_color {σ : Type} (api : plugin_api σ)
    (server player : Nat) (block : block_t) (m : machine σ) (hapi : m.api = some api) :
    (spadesx_plugin_on_block_place server player block m).1 = some PLUGIN_ALLOW ∧
    (spadesx_plugin_on_block_place server player block m).2.1.color =
      (api.player_get_team server player m.host).1.color ∧
    (spadesx_plugin_on_block_place server player block m).2.1.x = block.x ∧
    (spadesx_plugin_on_block_place server player block m).2.1.y = block.y ∧
    (spadesx_plugin_on_block_place server player block m).2.1.z = block.z := by
  refine ⟨?_, ?_, ?_, ?_, ?_⟩
  · simp [spadesx_plugin_on_block_place, hapi]
  all_goals
    simp only [spadesx_plugin_on_block_place, hapi, call_player_get_team, invoke]
    split <;> simp_all

theorem on_block_place_forces_team_color_witness :
    (loaded_machine (contract_api (idle_api (host_state Unit))) (sample_host 5 40 2)).api =
      some (contract_api (idle_api (host_state Unit))) ∧
    (spadesx_plugin_on_block_place 1 7 (block_t.mk 10 20 30 0x00FF00)
      (loaded_machine (contract_api (idle_api (host_state Unit)))
        (sample_host 5 40 2))).1 = some PLUGIN_ALLOW ∧
    (spadesx_plugin_on_block_place 1 7 (block_t.mk 10 20 30 0x00FF00)
      (loaded_machine (contract_api (idle_api (host_state Unit)))
        (sample_host 5 40 2))).2.1.color =
      ((contract_api (idle_api (host_state Unit))).player_get_team 1 7
        (loaded_machine (contract_api (idle_api (host_state Unit)))
          (sample_host 5 40 2)).host).1.color ∧
    (spadesx_plugin_on_block_place 1 7 (block_t.mk 10 20 30 0x00FF00)
      (loaded_machine (contract_api (idle_api (host_state Unit)))
        (sample_host 5 40 2))).2.1.x = (block_t.mk 10 20 30 0x00FF00).x ∧
    (spadesx_plugin_on_block_place 1 7 (block_t.mk 10 20 30 0x00FF00)
      (loaded_machine (contract_api (idle_api (host_state Unit)))
        (sample_host 5 40 2))).2.1.y = (block_t.mk 10 20 30 0x00FF00).y ∧
    (spadesx_plugin_on_block_place 1 7 (block_t.mk 10 20 30 0x00FF00)
      (loaded_machine (contract_api (idle_api (host_state Unit)))
        (sample_host 5 40 2))).2.1.z = (block_t.mk 10 20 30 0x00FF00).z :=
  ⟨rfl, on_block_place_forces_team_color (contract_api (idle_api (host_state Unit))) 1 7
    (block_t.mk 10 20 30 0x00FF00)
    (loaded_machine (contract_api (idle_api (host_state Unit))) (sample_host 5 40 2)) rfl⟩

/-- C4: each decision-event handler of a loaded plugin (block destroy, block
place, command, player hit) returns, for every input and every host behind the
table, either `PLUGIN_ALLOW` (1) or `PLUGIN_DENY` (2); so never `PLUGIN_OK` and
never a negative code. -/
theorem decision_handlers_return_allow_or_deny {σ : Type} (api : plugin_api σ) (m : machine σ)
    (hapi : m.api = some api) (server player victim tool hit_type weapon : Nat)
    (block : block_t) (command : String) :
    (PLUGIN_ALLOW = 1 ∧ PLUGIN_DENY = 2) ∧
    ((spadesx_plugin_on_block_destroy server player tool block m).1 = some PLUGIN_ALLOW ∨
      (spadesx_plugin_on_block_destroy server player tool block m).1 = some PLUGIN_DENY) ∧
    ((spadesx_plugin_on_block_place server player block m).1 = some PLUGIN_ALLOW ∨
      (spadesx_plugin_on_block_place server player block m).1 = some PLUGIN_DENY) ∧
    ((spadesx_plugin_on_command server player command m).1 = some PLUGIN_ALLOW ∨
      (spadesx_plugin_on_command server player command m).1 = some PLUGIN_DENY) ∧
    ((spadesx_plugin_on_player_hit server player victim hit_type weapon m).1 =
        some PLUGIN_ALLOW ∨
      (spadesx_plugin_on_player_hit server player victim hit_type weapon m).1 =
        some PLUGIN_DENY) := by
  refine ⟨⟨rfl, rfl⟩, ?_, ?_, ?_, ?_⟩
  · simp only [spadesx_plugin_on_block_destroy, hapi]
    split
    · exact Or.inr rfl
    · split
      · exact Or.inl rfl
      · split
        · exact Or.inr rfl
        · exact Or.inl rfl
  · simp [spadesx_plugin_on_block_place, hapi]
  · simp only [spadesx_plugin_on_command, hapi]
    split
    · exact Or.inl rfl
    · exact Or.inr rfl
  · simp only [spadesx_plugin_on_player_hit, hapi]
    split
    · exact Or.inr rfl
    · exact Or.inl rfl

theorem decision_handlers_return_allow_or_deny_witness :
    (loaded_machine (idle_api Unit) ()).api = some (idle_api Unit) ∧
    (PLUGIN_ALLOW = 1 ∧ PLUGIN_DENY = 2) ∧
    ((spadesx_plugin_on_block_destroy 1 7 TOOL_GUN (block_t.mk 100 100 30 0)
        (loaded_machine (idle_api Unit) ())).1 = some PLUGIN_ALLOW ∨
      (spadesx_plugin_on_block_destroy 1 7 TOOL_GUN (block_t.mk 100 100 30 0)
        (loaded_machine (idle_api Unit) ())).1 = some PLUGIN_DENY) ∧
    ((spadesx_plugin_on_block_place 1 7 (block_t.mk 100 100 30 0)
        (loaded_machine (idle_api Unit) ())).1 = some PLUGIN_ALLOW ∨
      (spadesx_plugin_on_block_place 1 7 (block_t.mk 100 100 30 0)
        (loaded_machine (idle_api Unit) ())).1 = some PLUGIN_DENY) ∧
    ((spadesx_plugin_on_command 1 7 "/help"
        (loaded_machine (idle_api Unit) ())).1 = some PLUGIN_ALLOW ∨
      (spadesx_plugin_on_command 1 7 "/help"
        (loaded_machine (idle_api Unit) ())).1 = some PLUGIN_DENY) ∧
    ((spadesx_plugin_on_player_hit 1 7 8 3 2
        (loaded_machine (idle_api Unit) ())).1 = some PLUGIN_ALLOW ∨
      (spadesx_plugin_on_player_hit 1 7 8 3 2
        (loaded_machine (idle_api Unit) ())).1 = some PLUGIN_DENY) :=
  ⟨rfl, decision_handlers_return_allow_or_deny (idle_api Unit)
    (loaded_machine (idle_api Unit) ()) rfl 1 7 8 TOOL_GUN 3 2 (block_t.mk 100 100 30 0) "/help"⟩

/-- C5, as stated, fails: a hit of type 4 (melee), which is not a headshot, is
allowed by the hit handler, and the shooter gets no notice. -/
theorem on_player_hit_melee_is_allowed :
    (4 : Nat) ≠ 1 ∧
    spadesx_plugin_on_player_hit 1 7 8 4 2 (loaded_machine (idle_api Unit) ()) =
      (some PLUGIN_ALLOW,
        { loaded_machine (idle_api Unit) () with
          calls := [api_call.player_get_name 7, api_call.player_get_name 8,
            api_call.log_debug PLUGIN_NAME "%s hit %s in the %s"
              [log_arg.str "", log_arg.str "", log_arg.str "melee"]] }) :=
  ⟨by decide, rfl⟩

/-- C5, amended: the hit handler of a loaded plugin returns `PLUGIN_ALLOW` if
and only if `hit_type` is 1 (head) or 4 (melee); for every other `hit_type` (0,
2, 3 and every value from 5 on) it returns `PLUGIN_DENY` and its last call is
the notice "Headshots only!" to the shooter, after the two name queries and the
debug log line that every hit produces. -/
theorem on_player_hit_head_or_melee {σ : Type} (api : plugin_api σ) (m : machine σ)
    (hapi : m.api = some api) (server shooter victim hit_type weapon : Nat) :
    ((spadesx_plugin_on_player_hit server shooter victim hit_type weapon m).1 =
        some PLUGIN_ALLOW ↔ (hit_type = 1 ∨ hit_type = 4)) ∧
    ((spadesx_plugin_on_player_hit server shooter victim hit_type weapon m).1 =
        some PLUGIN_DENY ↔ (hit_type ≠ 1 ∧ hit_type ≠ 4)) ∧
    (spadesx_plugin_on_player_hit server shooter victim hit_type weapon m).2.calls =
      m.calls ++
        [api_call.player_get_name shooter, api_call.player_get_name victim,
          api_call.log_debug PLUGIN_NAME "%s hit %s in the %s"
            [log_arg.str (api.player_get_name shooter m.host).1,
              log_arg.str (api.player_get_name victim (api.player_get_name shooter m.host).2).1,
              log_arg.str (hit_location hit_type)]] ++
        (if hit_type ≠ 1 ∧ hit_type ≠ 4 then
          [api_call.player_send_notice shooter "Headshots only!"] else []) := by
  by_cases h : hit_type ≠ 1 ∧ hit_type ≠ 4
  · have h' : ¬ (hit_type = 1 ∨ hit_type = 4) := by
      intro hc
      rcases hc with hc | hc
      · exact h.1 hc
      · exact h.2 hc
    simp [spadesx_plugin_on_player_hit, hapi, h, h', call_player_get_name, call_log_debug,
      call_player_send_notice, invoke, invoke_void, PLUGIN_ALLOW, PLUGIN_DENY]
  · have h' : hit_type = 1 ∨ hit_type = 4 := by
      by_contra hc
      exact h ⟨fun h1 => hc (Or.inl h1), fun h4 => hc (Or.inr h4)⟩
    simp [spadesx_plugin_on_player_hit, hapi, h, h', call_player_get_name, call_log_debug,
      invoke, invoke_void, PLUGIN_ALLOW, PLUGIN_DENY]

theorem on_player_hit_head_or_melee_witness :
    (loaded_machine (idle_api Unit) ()).api = some (idle_api Unit) ∧
    ((spadesx_plugin_on_player_hit 1 7 8 0 2 (loaded_machine (idle_api Unit) ())).1 =
        some PLUGIN_ALLOW ↔ ((0 : Nat) = 1 ∨ (0 : Nat) = 4)) ∧
    ((spadesx_plugin_on_player_hit 1 7 8 0 2 (loaded_machine (idle_api Unit) ())).1 =
        some PLUGIN_DENY ↔ ((0 : Nat) ≠ 1 ∧ (0 : Nat) ≠ 4)) ∧
    (spadesx_plugin_on_player_hit 1 7 8 0 2 (loaded_machine (idle_api Unit) ())).2.calls =
      (loaded_machine (idle_api Unit) ()).calls ++
        [api_call.player_get_name 7, api_call.player_get_name 8,
          api_call.log_debug PLUGIN_NAME "%s hit %s in the %s"
            [log_arg.str ((idle_api Unit).player_get_name 7
                (loaded_machine (idle_api Unit) ()).host).1,
              log_arg.str ((idle_api Unit).player_get_name 8
                ((idle_api Unit).player_get_name 7
                  (loaded_machine (idle_api Unit) ()).host).2).1,
              log_arg.str (hit_location 0)]] ++
        (if (0 : Nat) ≠ 1 ∧ (0 : Nat) ≠ 4 then
          [api_call.player_send_notice 7 "Headshots only!"] else []) :=
  ⟨rfl, on_player_hit_head_or_melee (idle_api Unit) (loaded_machine (idle_api Unit) ()) rfl
    1 7 8 0 2⟩

/-- C6, as stated, fails: the block (205, 239, 1) lies outside the documented
platform box (x starts at 206, y at 240), yet destroying it with the spade is
denied and the player is sent the platform notice. -/
theorem on_block_destroy_spade_denied_on_rim :
    ¬ ((206 : Int) ≤ (block_t.mk 205 239 1 0).x ∧ (block_t.mk 205 239 1 0).x ≤ 306 ∧
      240 ≤ (block_t.mk 205 239 1 0).y ∧ (block_t.mk 205 239 1 0).y ≤ 272 ∧
      0 ≤ (block_t.mk 205 239 1 0).z ∧ (block_t.mk 205 239 1 0).z ≤ 2) ∧
    spadesx_plugin_on_block_destroy 1 7 TOOL_SPADE (block_t.mk 205 239 1 0)
        (loaded_machine (idle_api Unit) ()) =
      (some PLUGIN_DENY,
        { loaded_machine (idle_api Unit) () with
          calls := [api_call.player_send_notice 7 NOTICE_PLATFORM] }) :=
  ⟨by decide, rfl⟩

/-- C6, amended: for every block that is neither inside the platform box
(206 <= x <= 306, 240 <= y <= 272, 0 <= z <= 2) nor on the wider layer the
handler protects as well (205 <= x <= 307, 239 <= y <= 273, z = 1), a
block-destroy event with the spade returns `PLUGIN_ALLOW`, for every server
and player, and the handler makes no call at all (so no notice) and changes
nothing. -/
theorem on_block_destroy_spade_allowed_off_platform {σ : Type}
    (server player : Nat) (block : block_t) (m : machine σ)
    (hbox : ¬ (206 ≤ block.x ∧ block.x ≤ 306 ∧ 240 ≤ block.y ∧ block.y ≤ 272 ∧
      0 ≤ block.z ∧ block.z ≤ 2))
    (hrim : ¬ (205 ≤ block.x ∧ block.x ≤ 307 ∧ 239 ≤ block.y ∧ block.y ≤ 273 ∧
      block.z = 1)) :
    spadesx_plugin_on_block_destroy server player TOOL_SPADE block m =
      (some PLUGIN_ALLOW, m) := by
  have hp : is_platform block.x block.y block.z = false := by
    cases hpl : is_platform block.x block.y block.z with
    | false => rfl
    | true =>
      exfalso
      simp only [is_platform, Bool.or_eq_true, Bool.and_eq_true, decide_eq_true_eq,
        beq_iff_eq, ge_iff_le] at hpl
      rcases hpl with ⟨⟨⟨h1, h2⟩, h3, h4⟩, h5⟩ | ⟨⟨⟨h1, h2⟩, h3, h4⟩, h5⟩
      · apply hbox
        refine ⟨h1, h2, h3, h4, ?_, ?_⟩ <;> rcases h5 with h5 | h5 <;> omega
      · exact hrim ⟨h1, h2, h3, h4, h5⟩
  simp [spadesx_plugin_on_block_destroy, hp]

theorem on_block_destroy_spade_allowed_off_platform_witness :
    ¬ ((206 : Int) ≤ (block_t.mk 205 239 0 0).x ∧ (block_t.mk 205 239 0 0).x ≤ 306 ∧
      240 ≤ (block_t.mk 205 239 0 0).y ∧ (block_t.mk 205 239 0 0).y ≤ 272 ∧
      0 ≤ (block_t.mk 205 239 0 0).z ∧ (block_t.mk 205 239 0 0).z ≤ 2) ∧
    ¬ ((205 : Int) ≤ (block_t.mk 205 239 0 0).x ∧ (block_t.mk 205 239 0 0).x ≤ 307 ∧
      239 ≤ (block_t.mk 205 239 0 0).y ∧ (block_t.mk 205 239 0 0).y ≤ 273 ∧
      (block_t.mk 205 239 0 0).z = 1) ∧
    spadesx_plugin_on_block_destroy 1 7 TOOL_SPADE (block_t.mk 205 239 0 0)
        (loaded_machine (idle_api Unit) ()) =
      (some PLUGIN_ALLOW, loaded_machine (idle_api Unit) ()) :=
  ⟨by decide, by decide,
    on_block_destroy_spade_allowed_off_platform 1 7 (block_t.mk 205 239 0 0)
      (loaded_machine (idle_api Unit) ()) (by decide) (by decide)⟩

/-- C7: on a block for which the platform test of the block-destroy handler is
false, with a tool other than the spade, a loaded plugin returns `PLUGIN_DENY`
if and only if the team that `player_get_team` returned has id 1 and the block
has x > 292, or has id 0 and the block has x < 220; in every other case (any
other team id, or 220 <= x <= 292) it returns `PLUGIN_ALLOW`. -/
theorem on_block_destroy_own_tower {σ : Type} (api : plugin_api σ) (m : machine σ)
    (hapi : m.api = some api) (server player tool : Nat) (block : block_t)
    (hplat : is_platform block.x block.y block.z = false) (htool : tool ≠ TOOL_SPADE) :
    ((spadesx_plugin_on_block_destroy server player tool block m).1 = some PLUGIN_DENY ↔
      (((api.player_get_team server player m.host).1.id = 1 ∧ block.x > 292) ∨
        ((api.player_get_team server player m.host).1.id = 0 ∧ block.x < 220))) ∧
    (¬ (((api.player_get_team server player m.host).1.id = 1 ∧ block.x > 292) ∨
        ((api.player_get_team server player m.host).1.id = 0 ∧ block.x < 220)) →
      (spadesx_plugin_on_block_destroy server player tool block m).1 = some PLUGIN_ALLOW) := by
  by_cases hc : ((api.player_get_team server player m.host).1.id = 1 ∧ block.x > 292) ∨
      ((api.player_get_team server player m.host).1.id = 0 ∧ block.x < 220)
  · simp only [spadesx_plugin_on_block_destroy, hplat, htool, hapi, call_player_get_team,
      invoke, if_pos hc]
    simp [hc]
  · simp only [spadesx_plugin_on_block_destroy, hplat, htool, hapi, call_player_get_team,
      invoke, if_neg hc]
    simp [hc, PLUGIN_ALLOW, PLUGIN_DENY]

theorem on_block_destroy_own_tower_witness :
    (loaded_machine (contract_api (idle_api (host_state Unit))) (sample_host 5 40 2)).api =
      some (contract_api (idle_api (host_state Unit))) ∧
    is_platform (block_t.mk 100 256 40 0).x (block_t.mk 100 256 40 0).y
      (block_t.mk 100 256 40 0).z = false ∧
    TOOL_GUN ≠ TOOL_SPADE ∧
    ((spadesx_plugin_on_block_destroy 1 7 TOOL_GUN (block_t.mk 100 256 40 0)
        (loaded_machine (contract_api (idle_api (host_state Unit)))
          (sample_host 5 40 2))).1 = some PLUGIN_DENY ↔
      ((((contract_api (idle_api (host_state Unit))).player_get_team 1 7
          (loaded_machine (contract_api (idle_api (host_state Unit)))
            (sample_host 5 40 2)).host).1.id = 1 ∧ (block_t.mk 100 256 40 0).x > 292) ∨
        (((contract_api (idle_api (host_state Unit))).player_get_team 1 7
          (loaded_machine (contract_api (idle_api (host_state Unit)))
            (sample_host 5 40 2)).host).1.id = 0 ∧ (block_t.mk 100 256 40 0).x < 220))) ∧
    (¬ ((((contract_api (idle_api (host_state Unit))).player_get_team 1 7
          (loaded_machine (contract_api (idle_api (host_state Unit)))
            (sample_host 5 40 2)).host).1.id = 1 ∧ (block_t.mk 100 256 40 0).x > 292) ∨
        (((contract_api (idle_api (host_state Unit))).player_get_team 1 7
          (loaded_machine (contract_api (idle_api (host_state Unit)))
            (sample_host 5 40 2)).host).1.id = 0 ∧ (block_t.mk 100 256 40 0).x < 220)) →
      (spadesx_plugin_on_block_destroy 1 7 TOOL_GUN (block_t.mk 100 256 40 0)
        (loaded_machine (contract_api (idle_api (host_state Unit)))
          (sample_host 5 40 2))).1 = some PLUGIN_ALLOW) :=
  ⟨rfl, by decide, by decide,
    on_block_destroy_own_tower (contract_api (idle_api (host_state Unit)))
      (loaded_machine (contract_api (idle_api (host_state Unit))) (sample_host 5 40 2)) rfl
      1 7 TOOL_GUN (block_t.mk 100 256 40 0) (by decide) (by decide)⟩

/-- C8: for every command string other than exactly "/restock" the command
handler returns `PLUGIN_DENY` and makes no call at all: the machine (host
state, record of calls, plugin statics) is returned as it was, whether or not
the plugin holds a table. -/
theorem on_command_other_not_handled {σ : Type} (server player : Nat) (command : String)
    (m : machine σ) (hcmd : command ≠ "/restock") :
    spadesx_plugin_on_command server player command m = (some PLUGIN_DENY, m) := by
  have h : ¬ strcmp command "/restock" = 0 := by
    rw [strcmp_eq_zero_iff]
    exact hcmd
  simp only [spadesx_plugin_on_command, if_neg h]

theorem on_command_other_not_handled_witness :
    "/Restock" ≠ "/restock" ∧
    spadesx_plugin_on_command 1 7 "/Restock" (loaded_machine (idle_api Unit) ()) =
      (some PLUGIN_DENY, loaded_machine (idle_api Unit) ()) :=
  ⟨by decide, on_command_other_not_handled 1 7 "/Restock"
    (loaded_machine (idle_api Unit) ()) (by decide)⟩

/-- C9: the block-place handler of a loaded plugin calls `player_restock` for
the player exactly once, as its last call, when the `player_get_blocks` it
issued returned less than 10, and not at all otherwise (the calls before are
the team, color and block-count queries, with a color broadcast in between when
the player's color is not the team color); and on a host whose player entries
follow their documented contract the player afterwards has exactly 50 blocks
and 3 grenades if they had fewer than 10 blocks, and the same block and grenade
counts as before otherwise. -/
theorem on_block_place_auto_restock (server player : Nat) (block : block_t) :
    (∀ (σ : Type) (api : plugin_api σ) (m : machine σ), m.api = some api →
      (spadesx_plugin_on_block_place server player block m).2.2.calls =
        m.calls ++
          [api_call.player_get_team server player, api_call.player_get_color player] ++
          (if (api.player_get_color player (api.player_get_team server player m.host).2).1 ≠
              (api.player_get_team server player m.host).1.color then
            [api_call.player_set_color_broadcast server player
              (api.player_get_team server player m.host).1.color] else []) ++
          [api_call.player_get_blocks player] ++
          (if (api.player_get_blocks player
              (host_at_blocks_query api server player m.host)).1 < 10 then
            [api_call.player_restock player] else [])) ∧
    (∀ (ρ : Type) (base : plugin_api (host_state ρ)) (m : machine (host_state ρ)),
      m.api = some (contract_api base) → player ≠ 0 →
      ((m.host.players player).blocks < 10 →
        ((spadesx_plugin_on_block_place server player block m).2.2.host.players player).blocks
            = 50 ∧
        ((spadesx_plugin_on_block_place server player block m).2.2.host.players player).grenades
            = 3) ∧
      (¬ (m.host.players player).blocks < 10 →
        ((spadesx_plugin_on_block_place server player block m).2.2.host.players player).blocks
            = (m.host.players player).blocks ∧
        ((spadesx_plugin_on_block_place server player block m).2.2.host.players player).grenades
            = (m.host.players player).grenades)) := by
  constructor
  · intro σ api m hapi
    simp only [spadesx_plugin_on_block_place, hapi, host_at_blocks_query,
      call_player_get_team, call_player_get_color, call_player_set_color_broadcast,
      call_player_get_blocks, call_player_restock, invoke]
    split <;> split <;> simp_all
  · intro ρ base m hapi hp
    simp only [spadesx_plugin_on_block_place, hapi,
      call_player_get_team, call_player_get_color, call_player_set_color_broadcast,
      call_player_get_blocks, call_player_restock, invoke]
    by_cases hcol : (m.host.players player).color = (m.host.players player).team.color <;>
      by_cases hb : (m.host.players player).blocks < 10 <;>
      simp [contract_api, hp, host_state.set_player, hcol, hb]

theorem on_block_place_auto_restock_witness :
    ((loaded_machine (idle_api Unit) ()).api = some (idle_api Unit) ∧
      (spadesx_plugin_on_block_place 1 7 (block_t.mk 10 20 30 5)
          (loaded_machine (idle_api Unit) ())).2.2.calls =
        (loaded_machine (idle_api Unit) ()).calls ++
          [api_call.player_get_team 1 7, api_call.player_get_color 7] ++
          (if ((idle_api Unit).player_get_color 7 ((idle_api Unit).player_get_team 1 7
                (loaded_machine (idle_api Unit) ()).host).2).1 ≠
              ((idle_api Unit).player_get_team 1 7
                (loaded_machine (idle_api Unit) ()).host).1.color then
            [api_call.player_set_color_broadcast 1 7
              ((idle_api Unit).player_get_team 1 7
                (loaded_machine (idle_api Unit) ()).host).1.color] else []) ++
          [api_call.player_get_blocks 7] ++
          (if ((idle_api Unit).player_get_blocks 7
              (host_at_blocks_query (idle_api Unit) 1 7
                (loaded_machine (idle_api Unit) ()).host)).1 < 10 then
            [api_call.player_restock 7] else [])) ∧
    ((loaded_machine (contract_api (idle_api (host_state Unit))) (sample_host 5 4 1)).api =
        some (contract_api (idle_api (host_state Unit))) ∧ (7 : Nat) ≠ 0 ∧
      ((((loaded_machine (contract_api (idle_api (host_state Unit)))
          (sample_host 5 4 1)).host.players 7).blocks < 10 →
        ((spadesx_plugin_on_block_place 1 7 (block_t.mk 10 20 30 5)
          (loaded_machine (contract_api (idle_api (host_state Unit)))
            (sample_host 5 4 1))).2.2.host.players 7).blocks = 50 ∧
        ((spadesx_plugin_on_block_place 1 7 (block_t.mk 10 20 30 5)
          (loaded_machine (contract_api (idle_api (host_state Unit)))
            (sample_host 5 4 1))).2.2.host.players 7).grenades = 3) ∧
      (¬ ((loaded_machine (contract_api (idle_api (host_state Unit)))
          (sample_host 5 4 1)).host.players 7).blocks < 10 →
        ((spadesx_plugin_on_block_place 1 7 (block_t.mk 10 20 30 5)
          (loaded_machine (contract_api (idle_api (host_state Unit)))
            (sample_host 5 4 1))).2.2.host.players 7).blocks =
          ((loaded_machine (contract_api (idle_api (host_state Unit)))
            (sample_host 5 4 1)).host.players 7).blocks ∧
        ((spadesx_plugin_on_block_place 1 7 (block_t.mk 10 20 30 5)
          (loaded_machine (contract_api (idle_api (host_state Unit)))
            (sample_host 5 4 1))).2.2.host.players 7).grenades =
          ((loaded_machine (contract_api (idle_api (host_state Unit)))
            (sample_host 5 4 1)).host.players 7).grenades))) :=
  ⟨⟨rfl, (on_block_place_auto_restock 1 7 (block_t.mk 10 20 30 5)).1 Unit (idle_api Unit)
      (loaded_machine (idle_api Unit) ()) rfl⟩,
    ⟨rfl, by decide, (on_block_place_auto_restock 1 7 (block_t.mk 10 20 30 5)).2 Unit
      (idle_api (host_state Unit))
      (loaded_machine (contract_api (idle_api (host_state Unit))) (sample_host 5 4 1))
      rfl (by decide)⟩⟩

theorem calls_within_invoke {σ α : Type} (cb : callback) (c : api_call) (f : σ → α × σ)
    (m : machine σ) :
    calls_within cb (invoke c f m).2 ↔ calls_within cb m ∧ window_allows cb c = true := by
  simp [calls_within, invoke, or_imp, forall_and]

theorem calls_within_invoke_void {σ : Type} (cb : callback) (c : api_call) (f : σ → σ)
    (m : machine σ) :
    calls_within cb (invoke_void c f m) ↔ calls_within cb m ∧ window_allows cb c = true := by
  simp [calls_within, invoke_void, or_imp, forall_and]

theorem c_for_preserves {S : Type} (P : S → Prop) (cond : Int → Bool) (body : Int → S → S)
    (hbody : ∀ i s, P s → P (body i s)) (fuel : Nat) (i : Int) (s : S) (hs : P s) :
    P (c_for cond body fuel i s) := by
  induction fuel generalizing i s with
  | zero => simpa [c_for] using hs
  | succ n ih =>
    unfold c_for
    split
    · exact ih (i + 1) (body i s) (hbody i s hs)
    · exact hs

theorem ite_preserves {S : Type} (P : S → Prop) (c : Prop) [Decidable c] (a b : S)
    (ha : P a) (hb : P b) : P (if c then a else b) := by
  split
  · exact ha
  · exact hb

theorem init_calls_within {σ : Type} (server : Nat) (t : Option (plugin_api σ))
    (m : machine σ) (h : calls_within .init m) :
    calls_within .init (spadesx_plugin_init server t m).2 := by
  cases t with
  | none => simpa [spadesx_plugin_init, calls_within] using h
  | some api =>
    simp only [spadesx_plugin_init, call_log_info, call_log_debug, calls_within_invoke_void]
    refine ⟨?_, rfl⟩
    apply c_for_preserves (calls_within callback.init)
    · intro i s hs
      simpa [init_tracker, calls_within] using hs
    · simp only [calls_within_invoke_void]
      exact ⟨⟨by simpa [calls_within] using h, rfl⟩, rfl⟩

theorem shutdown_calls_within {σ : Type} (server : Nat) (m : machine σ)
    (h : calls_within .shutdown m) :
    calls_within .shutdown (spadesx_plugin_shutdown server m).2 := by
  unfold spadesx_plugin_shutdown
  split
  · exact h
  · simp only [call_log_info, calls_within_invoke_void]
    exact ⟨h, rfl⟩

theorem platform_row_calls_within {σ : Type} (t : plugin_api σ) (server : Nat) (x : Int)
    (m : machine σ) (h : calls_within .on_server_init m) :
    calls_within .on_server_init (platform_row t server x m) := by
  unfold platform_row
  apply c_for_preserves (calls_within callback.on_server_init)
  · intro y s hs
    simp only [platform_block, call_init_add_block, calls_within_invoke]
    exact ⟨hs, rfl⟩
  · exact h

theorem on_server_init_calls_within {σ : Type} (server : Nat) (t : Option (plugin_api σ))
    (m : machine σ) (h : calls_within .on_server_init m) :
    calls_within .on_server_init (spadesx_plugin_on_server_init server t m).2 := by
  unfold spadesx_plugin_on_server_init
  split
  · exact h
  · rename_i api _
    have h1 : calls_within .on_server_init
        (call_log_info api PLUGIN_NAME "Initializing map..." [] m) := by
      simp only [call_log_info, calls_within_invoke_void]
      exact ⟨h, rfl⟩
    cases t with
    | none => exact h1
    | some papi =>
      have h2 : calls_within .on_server_init (call_get_map papi server
          (call_log_info api PLUGIN_NAME "Initializing map..." [] m)).2 := by
        simp only [call_get_map, calls_within_invoke]
        exact ⟨h1, rfl⟩
      simp only
      split
      · simp only [call_log_error, calls_within_invoke_void]
        exact ⟨h2, rfl⟩
      · simp only [call_log_info, call_init_set_intel_position, call_map_find_top_block,
          calls_within_invoke_void, calls_within_invoke]
        refine ⟨⟨⟨⟨⟨?_, rfl⟩, rfl⟩, rfl⟩, rfl⟩, rfl⟩
        apply c_for_preserves (calls_within callback.on_server_init)
        · intro x s hs
          exact platform_row_calls_within papi server x s hs
        · simp only [calls_within_invoke_void]
          exact ⟨by simpa [call_log_info] using h2, rfl⟩

theorem on_block_destroy_calls_within {σ : Type} (server player tool : Nat) (block : block_t)
    (m : machine σ) (h : calls_within .on_block_destroy m) :
    calls_within .on_block_destroy
      (spadesx_plugin_on_block_destroy server player tool block m).2 := by
  unfold spadesx_plugin_on_block_destroy
  simp only
  split
  · split
    · exact h
    · simp only [call_player_send_notice, calls_within_invoke]
      exact ⟨h, rfl⟩
  · split
    · exact h
    · split
      · exact h
      · split
        · simp only [call_player_send_notice, call_player_get_team, calls_within_invoke]
          exact ⟨⟨h, rfl⟩, rfl⟩
        · simp only [call_player_get_team, calls_within_invoke]
          exact ⟨h, rfl⟩

theorem on_block_place_calls_within {σ : Type} (server player : Nat) (block : block_t)
    (m : machine σ) (h : calls_within .on_block_place m) :
    calls_within .on_block_place (spadesx_plugin_on_block_place server player block m).2.2 := by
  unfold spadesx_plugin_on_block_place
  split
  · exact h
  · rename_i api _
    simp only
    have h2 : calls_within .on_block_place
        (call_player_get_color api player (call_player_get_team api server player m).2).2 := by
      simp only [call_player_get_color, call_player_get_team, calls_within_invoke]
      exact ⟨⟨h, rfl⟩, rfl⟩
    have h3 : calls_within .on_block_place
        (if (call_player_get_color api player (call_player_get_team api server player m).2).1 ≠
            (call_player_get_team api server player m).1.color then
          (call_player_set_color_broadcast api server player
            (call_player_get_team api server player m).1.color
            (call_player_get_color api player (call_player_get_team api server player m).2).2).2
        else
          (call_player_get_color api player (call_player_get_team api server player m).2).2) := by
      refine ite_preserves (calls_within callback.on_block_place) _ _ _ ?_ h2
      simp only [call_player_set_color_broadcast, calls_within_invoke]
      exact ⟨h2, rfl⟩
    refine ite_preserves (calls_within callback.on_block_place) _ _ _ ?_ ?_
    · simp only [call_player_restock, call_player_get_blocks, calls_within_invoke]
      exact ⟨⟨h3, rfl⟩, rfl⟩
    · simp only [call_player_get_blocks, calls_within_invoke]
      exact ⟨h3, rfl⟩

theorem on_command_calls_within {σ : Type} (server player : Nat) (command : String)
    (m : machine σ) (h : calls_within .on_command m) :
    calls_within .on_command (spadesx_plugin_on_command server player command m).2 := by
  unfold spadesx_plugin_on_command
  split
  · split
    · exact h
    · simp only [call_player_send_notice, call_player_restock, calls_within_invoke]
      exact ⟨⟨h, rfl⟩, rfl⟩
  · exact h

theorem on_player_connect_calls_within {σ : Type} (server player : Nat)
    (m : machine σ) (h : calls_within .on_player_connect m) :
    calls_within .on_player_connect (spadesx_plugin_on_player_connect server player m).2 := by
  unfold spadesx_plugin_on_player_connect
  split
  · exact h
  · simp only [call_player_send_notice, call_log_info, call_player_get_name,
      calls_within_invoke, calls_within_invoke_void]
    exact ⟨⟨⟨⟨⟨h, rfl⟩, rfl⟩, rfl⟩, rfl⟩, rfl⟩

theorem on_player_disconnect_calls_within {σ : Type} (server player : Nat) (reason : String)
    (m : machine σ) (h : calls_within .on_player_disconnect m) :
    calls_within .on_player_disconnect
      (spadesx_plugin_on_player_disconnect server player reason m).2 := by
  unfold spadesx_plugin_on_player_disconnect
  split
  · exact h
  · simp only [call_log_info, call_player_get_name, calls_within_invoke,
      calls_within_invoke_void]
    exact ⟨⟨h, rfl⟩, rfl⟩

theorem on_player_hit_calls_within {σ : Type} (server shooter victim hit_type weapon : Nat)
    (m : machine σ) (h : calls_within .on_player_hit m) :
    calls_within .on_player_hit
      (spadesx_plugin_on_player_hit server shooter victim hit_type weapon m).2 := by
  unfold spadesx_plugin_on_player_hit
  split
  · exact h
  · simp only
    split
    · simp only [call_player_send_notice, call_log_debug, call_player_get_name,
        calls_within_invoke, calls_within_invoke_void]
      exact ⟨⟨⟨⟨h, rfl⟩, rfl⟩, rfl⟩, rfl⟩
    · simp only [call_log_debug, call_player_get_name, calls_within_invoke,
        calls_within_invoke_void]
      exact ⟨⟨⟨h, rfl⟩, rfl⟩, rfl⟩

theorem tick_player_calls_within {σ : Type} (api : plugin_api σ) (server : Nat) (i : Int)
    (m : machine σ) (h : calls_within .on_tick m) :
    calls_within .on_tick (tick_player api server i m) := by
  have h1 : calls_within .on_tick (call_get_player api server i.toNat m).2 := by
    simp only [call_get_player, calls_within_invoke]
    exact ⟨h, rfl⟩
  have h2 : calls_within .on_tick (call_player_get_position api
      (call_get_player api server i.toNat m).1 (call_get_player api server i.toNat m).2).2 := by
    simp only [call_player_get_position, calls_within_invoke]
    exact ⟨h1, rfl⟩
  unfold tick_player
  simp only
  refine ite_preserves (calls_within callback.on_tick) _ _ _ ?_ ?_
  · simpa [calls_within] using h1
  · refine ite_preserves (calls_within callback.on_tick) _ _ _ ?_ h2
    refine ite_preserves (calls_within callback.on_tick) _ _ _ ?_ ?_
    · have h3 : calls_within .on_tick (call_map_set_block api server
          (float_to_int32 (call_player_get_position api
            (call_get_player api server i.toNat m).1
            (call_get_player api server i.toNat m).2).1.x)
          (float_to_int32 (call_player_get_position api
            (call_get_player api server i.toNat m).1
            (call_get_player api server i.toNat m).2).1.y)
          (wrap32 (float_to_int32 (call_player_get_position api
            (call_get_player api server i.toNat m).1
            (call_get_player api server i.toNat m).2).1.z - 3))
          0xFFFFFF00
          (call_map_is_valid_pos api
            (call_get_map api server (call_player_get_position api
              (call_get_player api server i.toNat m).1
              (call_get_player api server i.toNat m).2).2).1
            (float_to_int32 (call_player_get_position api
              (call_get_player api server i.toNat m).1
              (call_get_player api server i.toNat m).2).1.x)
            (float_to_int32 (call_player_get_position api
              (call_get_player api server i.toNat m).1
              (call_get_player api server i.toNat m).2).1.y)
            (wrap32 (float_to_int32 (call_player_get_position api
              (call_get_player api server i.toNat m).1
              (call_get_player api server i.toNat m).2).1.z - 3))
            (call_get_map api server (call_player_get_position api
              (call_get_player api server i.toNat m).1
              (call_get_player api server i.toNat m).2).2).2).2).2 := by
        simp only [call_map_set_block, call_map_is_valid_pos, call_get_map, calls_within_invoke]
        exact ⟨⟨⟨h2, rfl⟩, rfl⟩, rfl⟩
      simpa [calls_within] using h3
    · simp only [call_map_is_valid_pos, call_get_map, calls_within_invoke]
      exact ⟨⟨h2, rfl⟩, rfl⟩

theorem on_tick_calls_within {σ : Type} (server : Nat) (m : machine σ)
    (h : calls_within .on_tick m) :
    calls_within .on_tick (spadesx_plugin_on_tick server m).2 := by
  unfold spadesx_plugin_on_tick
  simp only
  split
  · simpa [calls_within] using h
  · apply c_for_preserves (calls_within callback.on_tick)
    · intro i s hs
      exact tick_player_calls_within _ server i s hs
    · simpa [calls_within] using h

theorem dispatch_calls_within {σ : Type} (e : plugin_event σ) (m : machine σ)
    (h : calls_within e.target m) : calls_within e.target (dispatch e m).2 := by
  cases e with
  | init server t => exact init_calls_within server t m h
  | shutdown server => exact shutdown_calls_within server m h
  | on_server_init server t => exact on_server_init_calls_within server t m h
  | on_block_destroy server player tool block =>
    exact on_block_destroy_calls_within server player tool block m h
  | on_block_place server player block =>
    exact on_block_place_calls_within server player block m h
  | on_command server player command => exact on_command_calls_within server player command m h
  | on_player_connect server player => exact on_player_connect_calls_within server player m h
  | on_player_disconnect server player reason =>
    exact on_player_disconnect_calls_within server player reason m h
  | on_player_hit server shooter victim hit_type weapon =>
    exact on_player_hit_calls_within server shooter victim hit_type weapon m h
  | on_tick server => exact on_tick_calls_within server m h

theorem run_step_respects {σ : Type} (r : run_state σ) (e : plugin_event σ)
    (h : respects_bootstrap_window r.log) : respects_bootstrap_window (run_step r e).log := by
  unfold run_step
  split
  · exact h
  · have hd := dispatch_calls_within e { r.m with calls := [] }
      (by intro c hc; simp at hc)
    intro x hx
    simp only [List.mem_append, List.mem_map] at hx
    rcases hx with hx | ⟨c, hc, rfl⟩
    · exact h x hx
    · exact hd c hc

theorem foldl_run_step_respects {σ : Type} (es : List (plugin_event σ)) (r : run_state σ)
    (h : respects_bootstrap_window r.log) :
    respects_bootstrap_window (es.foldl run_step r).log := by
  induction es generalizing r with
  | nil => exact h
  | cons e es ih => exact ih (run_step r e) (run_step_respects r e h)

theorem window_allows_iff (cb : callback) (c : api_call) :
    window_allows cb c = true ↔
      ((is_bootstrap_only c = true → cb = callback.on_server_init) ∧
        (cb = callback.on_server_init → is_replication_mutator c = false)) := by
  by_cases h1 : cb = callback.on_server_init <;>
    cases h2 : is_bootstrap_only c <;> cases h3 : is_replication_mutator c <;>
    simp [window_allows, h1, h2, h3]

theorem run_on_server_init_log {σ : Type} (server : Nat) (t : Option (plugin_api σ))
    (m : machine σ) :
    (run [plugin_event.on_server_init server t] m).log =
      (spadesx_plugin_on_server_init server t { m with calls := [] }).2.calls.map
        (fun c => (callback.on_server_init, c)) := by
  simp [run, run_step, dispatch, plugin_event.target]

theorem on_server_init_sets_intel {σ : Type} (api papi : plugin_api σ) (server : Nat)
    (m : machine σ) (z0 : Int) (hapi : m.api = some api)
    (hmap : (call_get_map papi server
      (call_log_info api PLUGIN_NAME "Initializing map..." [] m)).1 ≠ 0)
    (htop : ∀ map x y h, (papi.map_find_top_block map x y h).1 = z0) :
    api_call.init_set_intel_position server 0 255 255 z0 ∈
      (spadesx_plugin_on_server_init server (some papi) m).2.calls := by
  unfold spadesx_plugin_on_server_init
  simp only [hapi, if_neg hmap]
  rw [call_log_info, calls_invoke_void, call_init_set_intel_position, calls_invoke,
    call_init_set_intel_position, calls_invoke, call_map_find_top_block, fst_invoke, htop]
  simp

theorem sample_bootstrap_run_log :
    (callback.on_server_init, api_call.init_set_intel_position 1 0 255 255 0) ∈
      (run [plugin_event.on_server_init 1 (some mapped_api)]
        (loaded_machine mapped_api ())).log := by
  rw [run_on_server_init_log]
  exact List.mem_map_of_mem (fun c => (callback.on_server_init, c))
    (on_server_init_sets_intel mapped_api mapped_api 1
      { loaded_machine mapped_api () with calls := [] } 0 rfl (by decide)
      (fun _ _ _ _ => rfl))

/-- C10: over every run of the plugin's callbacks, from any machine, through
any tables and against any host, each call of a bootstrap-only entry
(`init_add_block`, `init_set_intel_position`) is made by
`spadesx_plugin_on_server_init` (never by init, shutdown, on_tick,
on_block_destroy, on_block_place, on_command, on_player_connect,
on_player_disconnect or on_player_hit), and no call made by
`spadesx_plugin_on_server_init` is a replication-triggering mutator
(`map_set_block`, `map_remove_block`, `player_set_color_broadcast`). -/
theorem run_respects_bootstrap_window {σ : Type} (es : List (plugin_event σ)) (m : machine σ)
    (cb : callback) (c : api_call) (hlog : (cb, c) ∈ (run es m).log) :
    (is_bootstrap_only c = true → cb = callback.on_server_init) ∧
    (cb = callback.on_server_init → is_replication_mutator c = false) := by
  have h : respects_bootstrap_window (run es m).log := by
    unfold run
    apply foldl_run_step_respects
    intro x hx
    simp at hx
  exact (window_allows_iff cb c).1 (h (cb, c) hlog)

theorem run_respects_bootstrap_window_witness :
    (callback.on_server_init, api_call.init_set_intel_position 1 0 255 255 0) ∈
      (run [plugin_event.on_server_init 1 (some mapped_api)]
        (loaded_machine mapped_api ())).log ∧
    (is_bootstrap_only (api_call.init_set_intel_position 1 0 255 255 0) = true →
      callback.on_server_init = callback.on_server_init) ∧
    (callback.on_server_init = callback.on_server_init →
      is_replication_mutator (api_call.init_set_intel_position 1 0 255 255 0) = false) :=
  ⟨sample_bootstrap_run_log,
    run_respects_bootstrap_window [plugin_event.on_server_init 1 (some mapped_api)]
      (loaded_machine mapped_api ()) callback.on_server_init
      (api_call.init_set_intel_position 1 0 255 255 0) sample_bootstrap_run_log⟩

/-- C11: the result codes of `plugin_result_t` are well partitioned:
`PLUGIN_OK` = 0, `PLUGIN_ALLOW` = 1, `PLUGIN_DENY` = 2; an enumerator has a
negative value exactly when its name starts with `PLUGIN_ERROR`, and the three
others are the success codes, which are not negative; every enumerator lies in
the range of its section (general -1..-99, player -100..-199, map -200..-299,
command -300..-399); and the 21 enumerators have 21 different values. -/
theorem plugin_result_codes_partitioned :
    (result_value .OK = 0 ∧ result_value .ALLOW = 1 ∧ result_value .DENY = 2) ∧
    (∀ e : plugin_result_t,
      (if named_error e = true then result_value e < 0
        else 0 ≤ result_value e ∧ result_section_of e = result_section.success) ∧
      (named_error e = false ↔ (e = .OK ∨ e = .ALLOW ∨ e = .DENY)) ∧
      in_section_range (result_section_of e) (result_value e) = true ∧
      e ∈ all_results) ∧
    all_results.length = 21 ∧
    (all_results.map result_value).Nodup ∧
    (∀ a b : plugin_result_t, result_value a = result_value b ↔ a = b) := by
  refine ⟨by decide, ?_, by decide, by decide, ?_⟩
  · intro e
    cases e <;> decide
  · intro a b
    cases a <;> cases b <;> decide

theorem c_for_calls_eq {σ : Type} (cond : Int → Bool) (body : Int → machine σ → machine σ)
    (d : Int → List api_call) (hbody : ∀ i s, (body i s).calls = s.calls ++ d i)
    (n : Nat) (i : Int) (s : machine σ) (hcond : ∀ k : Nat, k < n → cond (i + k) = true) :
    (c_for cond body n i s).calls = s.calls ++ c_for_calls d n i := by
  induction n generalizing i s with
  | zero => simp [c_for, c_for_calls]
  | succ n ih =>
    have h0 : cond i = true := by simpa using hcond 0 (Nat.succ_pos n)
    have hrest : ∀ k : Nat, k < n → cond (i + 1 + k) = true := by
      intro k hk
      have h := hcond (k + 1) (Nat.succ_lt_succ hk)
      have he : i + ((k + 1 : Nat) : Int) = i + 1 + (k : Int) := by push_cast; ring
      rw [he] at h
      exact h
    rw [c_for, if_pos h0, ih (i + 1) (body i s) hrest, hbody, c_for_calls, List.append_assoc]

theorem platform_block_calls {σ : Type} (t : plugin_api σ) (server : Nat) (x y : Int)
    (m : machine σ) :
    (platform_block t server x y m).calls = m.calls ++ [platform_call server x y] := rfl

theorem platform_row_calls {σ : Type} (t : plugin_api σ) (server : Nat) (x : Int)
    (m : machine σ) :
    (platform_row t server x m).calls =
      m.calls ++ c_for_calls (fun y => [platform_call server x y]) 33 240 := by
  unfold platform_row
  apply c_for_calls_eq
  · intro y s
    exact platform_block_calls t server x y s
  · intro k hk
    simp only [decide_eq_true_eq]
    omega

theorem platform_loop_calls {σ : Type} (t : plugin_api σ) (server : Nat) (m : machine σ) :
    (c_for (fun x => x ≤ 306) (platform_row t server) 101 206 m).calls =
      m.calls ++ platform_calls server := by
  unfold platform_calls
  apply c_for_calls_eq
  · intro x s
    exact platform_row_calls t server x s
  · intro k hk
    simp only [decide_eq_true_eq]
    omega

theorem calls_call_log_info {σ : Type} (t : plugin_api σ) (n f : String) (a : List log_arg)
    (m : machine σ) : (call_log_info t n f a m).calls = m.calls ++ [api_call.log_info n f a] :=
  rfl

theorem calls_call_log_error {σ : Type} (t : plugin_api σ) (n f : String) (a : List log_arg)
    (m : machine σ) :
    (call_log_error t n f a m).calls = m.calls ++ [api_call.log_error n f a] := rfl

theorem calls_call_get_map {σ : Type} (t : plugin_api σ) (server : Nat) (m : machine σ) :
    (call_get_map t server m).2.calls = m.calls ++ [api_call.get_map server] := rfl

theorem calls_call_map_find_top_block {σ : Type} (t : plugin_api σ) (map : Nat) (x y : Int)
    (m : machine σ) :
    (call_map_find_top_block t map x y m).2.calls =
      m.calls ++ [api_call.map_find_top_block map x y] := rfl

theorem calls_call_init_set_intel_position {σ : Type} (t : plugin_api σ) (server team : Nat)
    (x y z : Int) (m : machine σ) :
    (call_init_set_intel_position t server team x y z m).2.calls =
      m.calls ++ [api_call.init_set_intel_position server team x y z] := rfl

theorem on_server_init_calls_with_map {σ : Type} (api papi : plugin_api σ) (server : Nat)
    (m : machine σ) (hapi : m.api = some api)
    (hmap : (papi.get_map server
      (api.log_info PLUGIN_NAME "Initializing map..." [] m.host)).1 ≠ 0) :
    ∃ intel_z : Int,
      (spadesx_plugin_on_server_init server (some papi) m).2.calls =
        m.calls ++
          ([api_call.log_info PLUGIN_NAME "Initializing map..." [],
            api_call.get_map server,
            api_call.log_info PLUGIN_NAME "Creating platform..." []] ++
          (platform_calls server ++
          [api_call.log_info PLUGIN_NAME "Setting intel positions..." [],
            api_call.map_find_top_block
              (papi.get_map server
                (api.log_info PLUGIN_NAME "Initializing map..." [] m.host)).1 255 255,
            api_call.init_set_intel_position server 0 255 255 intel_z,
            api_call.init_set_intel_position server 1 255 255 intel_z,
            api_call.log_info PLUGIN_NAME "Map initialization complete!" []])) := by
  have hmap1 : (call_get_map papi server
      (call_log_info api PLUGIN_NAME "Initializing map..." [] m)).1 ≠ 0 := hmap
  have hmapv : (call_get_map papi server
      (call_log_info api PLUGIN_NAME "Initializing map..." [] m)).1 =
      (papi.get_map server (api.log_info PLUGIN_NAME "Initializing map..." [] m.host)).1 := rfl
  unfold spadesx_plugin_on_server_init
  simp only [hapi, if_neg hmap1]
  generalize (call_map_find_top_block papi _ 255 255 _).1 = z
  refine ⟨z, ?_⟩
  rw [calls_call_log_info, calls_call_init_set_intel_position,
    calls_call_init_set_intel_position, calls_call_map_find_top_block, calls_call_log_info,
    platform_loop_calls, calls_call_log_info, calls_call_get_map, calls_call_log_info, hmapv]
  simp only [List.append_assoc, List.cons_append, List.nil_append]

theorem on_server_init_calls_without_map {σ : Type} (api papi : plugin_api σ) (server : Nat)
    (m : machine σ) (hapi : m.api = some api)
    (hmap : (papi.get_map server
      (api.log_info PLUGIN_NAME "Initializing map..." [] m.host)).1 = 0) :
    (spadesx_plugin_on_server_init server (some papi) m).2.calls =
      m.calls ++
        [api_call.log_info PLUGIN_NAME "Initializing map..." [],
          api_call.get_map server,
          api_call.log_error PLUGIN_NAME "Map is NULL!" []] := by
  have hmap1 : (call_get_map papi server
      (call_log_info api PLUGIN_NAME "Initializing map..." [] m)).1 = 0 := hmap
  unfold spadesx_plugin_on_server_init
  simp only [hapi, if_pos hmap1]
  rw [calls_call_log_error, calls_call_get_map, calls_call_log_info]
  simp only [List.append_assoc, List.cons_append, List.nil_append]

theorem count_platform_row (server s : Nat) (x0 x y z : Int) (col : Nat) (n : Nat) (y0 : Int) :
    List.count (api_call.init_add_block s x y z col)
        (c_for_calls (fun y1 => [platform_call server x0 y1]) n y0) =
      if s = server ∧ x = x0 ∧ y0 ≤ y ∧ y < y0 + n ∧ z = 1 ∧ col = 0xFF00FFFF then 1 else 0 := by
  induction n generalizing y0 with
  | zero =>
    have hfalse : ¬ (s = server ∧ x = x0 ∧ y0 ≤ y ∧ y < y0 + ((0 : Nat) : Int) ∧ z = 1 ∧
        col = 0xFF00FFFF) := by
      intro h
      have h1 := h.2.2.1
      have h2 := h.2.2.2.1
      simp only [Nat.cast_zero, add_zero] at h2
      omega
    rw [if_neg hfalse]
    simp [c_for_calls]
  | succ n ih =>
    rw [c_for_calls, List.count_append, ih (y0 + 1)]
    simp only [List.count_cons, List.count_nil, platform_call, beq_iff_eq,
      api_call.init_add_block.injEq, zero_add]
    push_cast
    split_ifs <;> omega

theorem count_platform_calls (server s : Nat) (x y z : Int) (col : Nat) (n : Nat) (x0 : Int) :
    List.count (api_call.init_add_block s x y z col)
        (c_for_calls (fun x1 => c_for_calls (fun y1 => [platform_call server x1 y1]) 33 240)
          n x0) =
      if s = server ∧ x0 ≤ x ∧ x < x0 + n ∧ 240 ≤ y ∧ y ≤ 272 ∧ z = 1 ∧ col = 0xFF00FFFF
      then 1 else 0 := by
  induction n generalizing x0 with
  | zero =>
    have hfalse : ¬ (s = server ∧ x0 ≤ x ∧ x < x0 + ((0 : Nat) : Int) ∧ 240 ≤ y ∧ y ≤ 272 ∧
        z = 1 ∧ col = 0xFF00FFFF) := by
      intro h
      have h1 := h.2.1
      have h2 := h.2.2.1
      simp only [Nat.cast_zero, add_zero] at h2
      omega
    rw [if_neg hfalse]
    simp [c_for_calls]
  | succ n ih =>
    rw [c_for_calls, List.count_append, ih (x0 + 1), count_platform_row]
    push_cast
    split_ifs <;> omega

theorem countP_c_for_calls (p : api_call → Bool) (d : Int → List api_call) (L : Nat)
    (hd : ∀ i, List.countP p (d i) = L) (n : Nat) (i : Int) :
    List.countP p (c_for_calls d n i) = n * L := by
  induction n generalizing i with
  | zero => simp [c_for_calls]
  | succ n ih =>
    simp only [c_for_calls, List.countP_append, hd, ih (i + 1)]
    ring

theorem countP_platform_calls (server : Nat) :
    List.countP is_init_add_block (platform_calls server) = 3333 := by
  unfold platform_calls
  rw [countP_c_for_calls is_init_add_block _ 33]
  intro x
  rw [countP_c_for_calls is_init_add_block _ 1]
  intro y
  rfl

theorem count_all_platform_calls (server s : Nat) (x y z : Int) (col : Nat) :
    List.count (api_call.init_add_block s x y z col) (platform_calls server) =
      if s = server ∧ 206 ≤ x ∧ x ≤ 306 ∧ 240 ≤ y ∧ y ≤ 272 ∧ z = 1 ∧ col = 0xFF00FFFF
      then 1 else 0 := by
  unfold platform_calls
  rw [count_platform_calls]
  push_cast
  split_ifs <;> omega

/-- C13: the platform the plugin builds is the platform it protects.  For a
loaded plugin whose `get_map` in `spadesx_plugin_on_server_init` returns a
non-`NULL` map, the calls of that callback contain `init_add_block` exactly
once for each (x, y) with 206 <= x <= 306 and 240 <= y <= 272, at z = 1 with
color 0xFF00FFFF, and no other `init_add_block` (3333 calls in all); a
block-destroy event on any such block is denied for every player, team, tool
and host; and when `get_map` returns `NULL` the callback makes three calls
(two log lines and `get_map`), none of them `init_add_block` or
`init_set_intel_position`. -/
theorem on_server_init_builds_protected_platform {σ : Type} (api papi : plugin_api σ)
    (server : Nat) (m : machine σ) (hapi : m.api = some api) :
    ((papi.get_map server (api.log_info PLUGIN_NAME "Initializing map..." [] m.host)).1 ≠ 0 →
      ∃ new : List api_call,
        (spadesx_plugin_on_server_init server (some papi) m).2.calls = m.calls ++ new ∧
        (∀ (s : Nat) (x y z : Int) (col : Nat),
          List.count (api_call.init_add_block s x y z col) new =
            if s = server ∧ 206 ≤ x ∧ x ≤ 306 ∧ 240 ≤ y ∧ y ≤ 272 ∧ z = 1 ∧ col = 0xFF00FFFF
            then 1 else 0) ∧
        List.countP is_init_add_block new = 3333) ∧
    (∀ (api1 : plugin_api σ) (m1 : machine σ) (server1 player tool : Nat) (x y : Int),
      m1.api = some api1 → 206 ≤ x → x ≤ 306 → 240 ≤ y → y ≤ 272 →
      (spadesx_plugin_on_block_destroy server1 player tool (block_t.mk x y 1 0xFF00FFFF) m1).1 =
        some PLUGIN_DENY) ∧
    ((papi.get_map server (api.log_info PLUGIN_NAME "Initializing map..." [] m.host)).1 = 0 →
      (spadesx_plugin_on_server_init server (some papi) m).2.calls =
        m.calls ++
          [api_call.log_info PLUGIN_NAME "Initializing map..." [],
            api_call.get_map server,
            api_call.log_error PLUGIN_NAME "Map is NULL!" []] ∧
      List.countP is_bootstrap_only
          [api_call.log_info PLUGIN_NAME "Initializing map..." [],
            api_call.get_map server,
            api_call.log_error PLUGIN_NAME "Map is NULL!" []] = 0) := by
  refine ⟨?_, ?_, ?_⟩
  · intro hmap
    obtain ⟨z, hz⟩ := on_server_init_calls_with_map api papi server m hapi hmap
    refine ⟨_, hz, ?_, ?_⟩
    · intro s x y z1 col
      rw [List.count_append, List.count_append, count_all_platform_calls]
      simp [List.count_cons]
    · rw [List.countP_append, List.countP_append, countP_platform_calls]
      simp [List.countP_cons, is_init_add_block]
  · intro api1 m1 server1 player tool x y hapi1 hx1 hx2 hy1 hy2
    have hp : is_platform x y 1 = true :=
      is_platform_of_box x y 1 ⟨hx1, hx2⟩ ⟨hy1, hy2⟩ (by decide)
    simp [spadesx_plugin_on_block_destroy, hp, hapi1]
  · intro hmap
    exact ⟨on_server_init_calls_without_map api papi server m hapi hmap, rfl⟩

theorem on_server_init_builds_protected_platform_witness :
    ((loaded_machine mapped_api ()).api = some mapped_api ∧
      (mapped_api.get_map 1 (mapped_api.log_info PLUGIN_NAME "Initializing map..." []
        (loaded_machine mapped_api ()).host)).1 ≠ 0 ∧
      ∃ new : List api_call,
        (spadesx_plugin_on_server_init 1 (some mapped_api)
          (loaded_machine mapped_api ())).2.calls = (loaded_machine mapped_api ()).calls ++ new ∧
        (∀ (s : Nat) (x y z : Int) (col : Nat),
          List.count (api_call.init_add_block s x y z col) new =
            if s = 1 ∧ 206 ≤ x ∧ x ≤ 306 ∧ 240 ≤ y ∧ y ≤ 272 ∧ z = 1 ∧ col = 0xFF00FFFF
            then 1 else 0) ∧
        List.countP is_init_add_block new = 3333) ∧
    ((loaded_machine mapped_api ()).api = some mapped_api ∧
      (206 : Int) ≤ 206 ∧ (206 : Int) ≤ 306 ∧ (240 : Int) ≤ 272 ∧ (272 : Int) ≤ 272 ∧
      (spadesx_plugin_on_block_destroy 1 7 TOOL_SPADE (block_t.mk 206 272 1 0xFF00FFFF)
        (loaded_machine mapped_api ())).1 = some PLUGIN_DENY) ∧
    ((loaded_machine (idle_api Unit) ()).api = some (idle_api Unit) ∧
      ((idle_api Unit).get_map 1 ((idle_api Unit).log_info PLUGIN_NAME "Initializing map..." []
        (loaded_machine (idle_api Unit) ()).host)).1 = 0 ∧
      (spadesx_plugin_on_server_init 1 (some (idle_api Unit))
          (loaded_machine (idle_api Unit) ())).2.calls =
        (loaded_machine (idle_api Unit) ()).calls ++
          [api_call.log_info PLUGIN_NAME "Initializing map..." [],
            api_call.get_map 1,
            api_call.log_error PLUGIN_NAME "Map is NULL!" []] ∧
      List.countP is_bootstrap_only
          [api_call.log_info PLUGIN_NAME "Initializing map..." [],
            api_call.get_map 1,
            api_call.log_error PLUGIN_NAME "Map is NULL!" []] = 0) :=
  ⟨⟨rfl, by decide,
      (on_server_init_builds_protected_platform mapped_api mapped_api 1
        (loaded_machine mapped_api ()) rfl).1 (by decide)⟩,
    ⟨rfl, by decide, by decide, by decide, by decide,
      (on_server_init_builds_protected_platform mapped_api mapped_api 1
        (loaded_machine mapped_api ()) rfl).2.1 mapped_api (loaded_machine mapped_api ())
        1 7 TOOL_SPADE 206 272 rfl (by decide) (by decide) (by decide) (by decide)⟩,
    ⟨rfl, rfl,
      (on_server_init_builds_protected_platform (idle_api Unit) (idle_api Unit) 1
        (loaded_machine (idle_api Unit) ()) rfl).2.2 rfl⟩⟩

theorem c_for_succ_last {S : Type} (cond : Int → Bool) (body : Int → S → S) (n : Nat)
    (i : Int) (s : S) (hcond : ∀ k : Nat, k ≤ n → cond (i + k) = true) :
    c_for cond body (n + 1) i s = body (i + n) (c_for cond body n i s) := by
  induction n generalizing i s with
  | zero =>
    have h0 : cond i = true := by simpa using hcond 0 (Nat.le_refl 0)
    simp [c_for, h0]
  | succ n ih =>
    have h0 : cond i = true := by simpa using hcond 0 (Nat.zero_le _)
    have hrest : ∀ k : Nat, k ≤ n → cond (i + 1 + k) = true := by
      intro k hk
      have h := hcond (k + 1) (Nat.succ_le_succ hk)
      have he : i + ((k + 1 : Nat) : Int) = i + 1 + (k : Int) := by push_cast; ring
      rw [he] at h
      exact h
    have he : i + ((n + 1 : Nat) : Int) = i + 1 + (n : Int) := by push_cast; ring
    rw [c_for, if_pos h0, ih (i + 1) (body i s) hrest, he]
    conv_rhs => rw [c_for, if_pos h0]

theorem tick_machine_at_succ {σ : Type} (api : plugin_api σ) (server : Nat) (m : machine σ)
    (k : Nat) (hk : k < 32) :
    tick_machine_at api server m (k + 1) =
      tick_player api server k (tick_machine_at api server m k) := by
  unfold tick_machine_at
  rw [c_for_succ_last]
  · simp
  · intro j hj
    simp only [zero_add, decide_eq_true_eq]
    omega

theorem on_tick_eq_tick_machine_at {σ : Type} (api : plugin_api σ) (server : Nat)
    (m : machine σ) (hapi : m.api = some api) :
    spadesx_plugin_on_tick server m = (some (), tick_machine_at api server m 32) := by
  unfold spadesx_plugin_on_tick tick_machine_at
  simp only [hapi]

theorem tick_player_calls_cases {σ : Type} (api : plugin_api σ) (server k : Nat)
    (m : machine σ) :
    (slot_player api server k m = 0 ∧
      (tick_player api server k m).calls = m.calls ++ [api_call.get_player server k]) ∨
    (slot_player api server k m ≠ 0 ∧
      (tick_player api server k m).calls = m.calls ++
        [api_call.get_player server k,
          api_call.player_get_position (slot_player api server k m)]) ∨
    (slot_player api server k m ≠ 0 ∧ slot_valid api server k m = 0 ∧
      (tick_player api server k m).calls = m.calls ++
        [api_call.get_player server k,
          api_call.player_get_position (slot_player api server k m),
          api_call.get_map server,
          api_call.map_is_valid_pos (slot_map api server k m) (slot_block_x api server k m)
            (slot_block_y api server k m) (slot_block_z api server k m)]) ∨
    (slot_player api server k m ≠ 0 ∧ slot_valid api server k m ≠ 0 ∧
      (tick_player api server k m).calls = m.calls ++
        [api_call.get_player server k,
          api_call.player_get_position (slot_player api server k m),
          api_call.get_map server,
          api_call.map_is_valid_pos (slot_map api server k m) (slot_block_x api server k m)
            (slot_block_y api server k m) (slot_block_z api server k m),
          api_call.map_set_block server (slot_block_x api server k m)
            (slot_block_y api server k m) (slot_block_z api server k m) 0xFFFFFF00]) := by
  by_cases hp : slot_player api server k m = 0
  · left
    refine ⟨hp, ?_⟩
    have hp1 : (api.get_player server k m.host).1 = 0 := hp
    simp [tick_player, call_get_player, invoke, hp1]
  · right
    have hp1 : ¬ (api.get_player server k m.host).1 = 0 := hp
    simp only [tick_player, slot_player, slot_valid, slot_map, slot_block_x, slot_block_y,
      slot_block_z, slot_position, call_get_player, call_player_get_position, call_get_map,
      call_map_is_valid_pos, call_map_set_block, invoke, Int.toNat_ofNat, hp1, if_false,
      ne_eq, not_false_eq_true, true_and]
    split_ifs with h1 h2 <;> simp_all

theorem tick_slot_calls_cases {σ : Type} (api : plugin_api σ) (server k : Nat)
    (m : machine σ) :
    (slot_player api server k m = 0 ∧
      tick_slot_calls api server k m = [api_call.get_player server k]) ∨
    (slot_player api server k m ≠ 0 ∧
      tick_slot_calls api server k m =
        [api_call.get_player server k,
          api_call.player_get_position (slot_player api server k m)]) ∨
    (slot_player api server k m ≠ 0 ∧ slot_valid api server k m = 0 ∧
      tick_slot_calls api server k m =
        [api_call.get_player server k,
          api_call.player_get_position (slot_player api server k m),
          api_call.get_map server,
          api_call.map_is_valid_pos (slot_map api server k m) (slot_block_x api server k m)
            (slot_block_y api server k m) (slot_block_z api server k m)]) ∨
    (slot_player api server k m ≠ 0 ∧ slot_valid api server k m ≠ 0 ∧
      tick_slot_calls api server k m =
        [api_call.get_player server k,
          api_call.player_get_position (slot_player api server k m),
          api_call.get_map server,
          api_call.map_is_valid_pos (slot_map api server k m) (slot_block_x api server k m)
            (slot_block_y api server k m) (slot_block_z api server k m),
          api_call.map_set_block server (slot_block_x api server k m)
            (slot_block_y api server k m) (slot_block_z api server k m) 0xFFFFFF00]) := by
  unfold tick_slot_calls
  rcases tick_player_calls_cases api server k m with ⟨h0, h⟩ | ⟨h0, h⟩ | ⟨h0, h1, h⟩ |
    ⟨h0, h1, h⟩
  · exact Or.inl ⟨h0, by rw [h, List.drop_left]⟩
  · exact Or.inr (Or.inl ⟨h0, by rw [h, List.drop_left]⟩)
  · exact Or.inr (Or.inr (Or.inl ⟨h0, h1, by rw [h, List.drop_left]⟩))
  · exact Or.inr (Or.inr (Or.inr ⟨h0, h1, by rw [h, List.drop_left]⟩))

theorem tick_player_calls_append {σ : Type} (api : plugin_api σ) (server k : Nat)
    (m : machine σ) :
    (tick_player api server k m).calls = m.calls ++ tick_slot_calls api server k m := by
  unfold tick_slot_calls
  rcases tick_player_calls_cases api server k m with ⟨_, h⟩ | ⟨_, h⟩ | ⟨_, _, h⟩ | ⟨_, _, h⟩ <;>
    rw [h, List.drop_left]

theorem tick_machine_at_calls {σ : Type} (api : plugin_api σ) (server : Nat) (m : machine σ)
    (k : Nat) (hk : k ≤ 32) :
    (tick_machine_at api server m k).calls =
      m.calls ++ ((List.range k).map
        (fun j => tick_slot_calls api server j (tick_machine_at api server m j))).flatten := by
  induction k with
  | zero => simp [tick_machine_at, c_for]
  | succ k ih =>
    rw [tick_machine_at_succ api server m k (by omega), tick_player_calls_append,
      ih (by omega), List.range_succ, List.map_append, List.flatten_append,
      List.append_assoc]
    simp

theorem tick_slot_calls_safe {σ : Type} (api : plugin_api σ) (server k : Nat)
    (m : machine σ) :
    (tick_slot_calls api server k m).head? = some (api_call.get_player server k) ∧
    List.countP is_map_set_block (tick_slot_calls api server k m) ≤ 1 ∧
    (slot_player api server k m = 0 →
      List.countP is_map_set_block (tick_slot_calls api server k m) = 0) ∧
    (∀ c ∈ tick_slot_calls api server k m, is_map_set_block c = true →
      c = api_call.map_set_block server (slot_block_x api server k m)
          (slot_block_y api server k m) (slot_block_z api server k m) 0xFFFFFF00 ∧
      slot_player api server k m ≠ 0 ∧ slot_valid api server k m ≠ 0 ∧
      ∃ pre : List api_call, tick_slot_calls api server k m =
        pre ++ [api_call.map_is_valid_pos (slot_map api server k m)
          (slot_block_x api server k m) (slot_block_y api server k m)
          (slot_block_z api server k m), c]) := by
  rcases tick_slot_calls_cases api server k m with ⟨h0, h⟩ | ⟨h0, h⟩ | ⟨h0, h1, h⟩ |
    ⟨h0, h1, h⟩
  · rw [h]
    simp [is_map_set_block]
  · rw [h]
    simp [is_map_set_block, h0]
  · rw [h]
    simp [is_map_set_block, h0]
  · rw [h]
    refine ⟨rfl, by simp [is_map_set_block], fun hz => absurd hz h0, ?_⟩
    intro c hc hset
    simp only [List.mem_cons, List.mem_singleton, List.not_mem_nil, or_false] at hc
    rcases hc with hc | hc | hc | hc | hc
    · rw [hc] at hset; simp [is_map_set_block] at hset
    · rw [hc] at hset; simp [is_map_set_block] at hset
    · rw [hc] at hset; simp [is_map_set_block] at hset
    · rw [hc] at hset; simp [is_map_set_block] at hset
    · refine ⟨hc, h0, h1, ?_⟩
      rw [hc]
      exact ⟨[api_call.get_player server k,
        api_call.player_get_position (slot_player api server k m),
        api_call.get_map server], rfl⟩

theorem sample_tick_slot_calls :
    tick_slot_calls trail_api 1 5 (loaded_machine trail_api ()) =
      [api_call.get_player 1 5, api_call.player_get_position 6, api_call.get_map 1,
        api_call.map_is_valid_pos 1 0 0 (-3), api_call.map_set_block 1 0 0 (-3) 0xFFFFFF00] := by
  decide

/-- C12: in one tick of a loaded plugin, for every tracker state and every
host, the calls are those of the 32 player slots in order (the calls of slot
k being what round k of the loop adds); the calls of a slot start with its
`get_player`, contain at most one `map_set_block`, and
none when `get_player` returned `NULL`; and a `map_set_block` of a slot is the
call right after the slot's `map_is_valid_pos` for the same position, which
returned non-zero, with color 0xFFFFFF00 at (bx, by, bz), where bx and by are
the player's x and y truncated to integers and bz is the truncated z minus 3
(as an `int32_t`). -/
theorem on_tick_set_block_only_where_valid {σ : Type} (api : plugin_api σ) (server : Nat)
    (m : machine σ) (hapi : m.api = some api) (k : Nat) (hk : k < 32) :
    (spadesx_plugin_on_tick server m).2.calls =
      m.calls ++ ((List.range 32).map
        (fun j => tick_slot_calls api server j (tick_machine_at api server m j))).flatten ∧
    (tick_machine_at api server m (k + 1)).calls =
      (tick_machine_at api server m k).calls ++
        tick_slot_calls api server k (tick_machine_at api server m k) ∧
    (tick_slot_calls api server k (tick_machine_at api server m k)).head? =
      some (api_call.get_player server k) ∧
    List.countP is_map_set_block
      (tick_slot_calls api server k (tick_machine_at api server m k)) ≤ 1 ∧
    (slot_player api server k (tick_machine_at api server m k) = 0 →
      List.countP is_map_set_block
        (tick_slot_calls api server k (tick_machine_at api server m k)) = 0) ∧
    (∀ c ∈ tick_slot_calls api server k (tick_machine_at api server m k),
      is_map_set_block c = true →
      c = api_call.map_set_block server
          (slot_block_x api server k (tick_machine_at api server m k))
          (slot_block_y api server k (tick_machine_at api server m k))
          (slot_block_z api server k (tick_machine_at api server m k)) 0xFFFFFF00 ∧
      slot_player api server k (tick_machine_at api server m k) ≠ 0 ∧
      slot_valid api server k (tick_machine_at api server m k) ≠ 0 ∧
      ∃ pre : List api_call,
        tick_slot_calls api server k (tick_machine_at api server m k) =
          pre ++ [api_call.map_is_valid_pos
            (slot_map api server k (tick_machine_at api server m k))
            (slot_block_x api server k (tick_machine_at api server m k))
            (slot_block_y api server k (tick_machine_at api server m k))
            (slot_block_z api server k (tick_machine_at api server m k)), c]) := by
  refine ⟨?_, ?_, tick_slot_calls_safe api server k (tick_machine_at api server m k)⟩
  · rw [on_tick_eq_tick_machine_at api server m hapi]
    exact tick_machine_at_calls api server m 32 (Nat.le_refl 32)
  · rw [tick_machine_at_succ api server m k hk, tick_player_calls_append]

theorem on_tick_set_block_only_where_valid_witness :
    (loaded_machine trail_api ()).api = some trail_api ∧ (5 : Nat) < 32 ∧
    (spadesx_plugin_on_tick 1 (loaded_machine trail_api ())).2.calls =
      (loaded_machine trail_api ()).calls ++ ((List.range 32).map
        (fun j => tick_slot_calls trail_api 1 j (tick_machine_at trail_api 1 (loaded_machine trail_api ()) j))).flatten ∧
    (tick_machine_at trail_api 1 (loaded_machine trail_api ()) (5 + 1)).calls =
      (tick_machine_at trail_api 1 (loaded_machine trail_api ()) 5).calls ++
        tick_slot_calls trail_api 1 5 (tick_machine_at trail_api 1 (loaded_machine trail_api ()) 5) ∧
    (tick_slot_calls trail_api 1 5 (tick_machine_at trail_api 1 (loaded_machine trail_api ()) 5)).head? =
      some (api_call.get_player 1 5) ∧
    List.countP is_map_set_block
      (tick_slot_calls trail_api 1 5 (tick_machine_at trail_api 1 (loaded_machine trail_api ()) 5)) ≤ 1 ∧
    (slot_player trail_api 1 5 (tick_machine_at trail_api 1 (loaded_machine trail_api ()) 5) = 0 →
      List.countP is_map_set_block
        (tick_slot_calls trail_api 1 5 (tick_machine_at trail_api 1 (loaded_machine trail_api ()) 5)) = 0) ∧
    (∀ c ∈ tick_slot_calls trail_api 1 5 (tick_machine_at trail_api 1 (loaded_machine trail_api ()) 5),
      is_map_set_block c = true →
      c = api_call.map_set_block 1
          (slot_block_x trail_api 1 5 (tick_machine_at trail_api 1 (loaded_machine trail_api ()) 5))
          (slot_block_y trail_api 1 5 (tick_machine_at trail_api 1 (loaded_machine trail_api ()) 5))
          (slot_block_z trail_api 1 5 (tick_machine_at trail_api 1 (loaded_machine trail_api ()) 5)) 0xFFFFFF00 ∧
      slot_player trail_api 1 5 (tick_machine_at trail_api 1 (loaded_machine trail_api ()) 5) ≠ 0 ∧
      slot_valid trail_api 1 5 (tick_machine_at trail_api 1 (loaded_machine trail_api ()) 5) ≠ 0 ∧
      ∃ pre : List api_call,
        tick_slot_calls trail_api 1 5 (tick_machine_at trail_api 1 (loaded_machine trail_api ()) 5) =
          pre ++ [api_call.map_is_valid_pos
            (slot_map trail_api 1 5 (tick_machine_at trail_api 1 (loaded_machine trail_api ()) 5))
            (slot_block_x trail_api 1 5 (tick_machine_at trail_api 1 (loaded_machine trail_api ()) 5))
            (slot_block_y trail_api 1 5 (tick_machine_at trail_api 1 (loaded_machine trail_api ()) 5))
            (slot_block_z trail_api 1 5 (tick_machine_at trail_api 1 (loaded_machine trail_api ()) 5)), c]) :=
  ⟨rfl, by decide,
    on_tick_set_block_only_where_valid trail_api 1 (loaded_machine trail_api ()) rfl 5
      (by decide)⟩

end SpadesX
